import Mathlib

/-!
# ccomms::vector

A shallow embedding of `src/modules/tensor/vector.hpp`: the class template
`ccomms::vector<T, N>` (a `std::vector<T>` when `N == 0`, a `std::array<T, N>`
otherwise) with its constructors and its arithmetic operators, and of the
coordinate classes `cartesian`, `spherical` and `geodetic` of
`src/modules/coords/types.hpp`, which derive from it.

Conventions of the embedding.

* The element sequence is a `List`; the class invariant of `std::array<T, N>`
  (its size is the template argument) is a field of the structure.
* An operation returns `Except Error _`.  `Error.invalid_argument` is a thrown
  `std::invalid_argument` with its `what()` text.  The two other constructors
  stand for undefined behaviour of the C++ abstract machine: an unchecked
  `operator[]`, or iterator, past the end, and an integral division by zero.
* The template is parametric in the element types, and so is the embedding: the
  built-in `+`, `-`, `*` of the common type `C` are the operations of `C`, and
  the usual arithmetic conversions `T → C`, `U → C` applied to the operands of a
  mixed expression are the parameters `cT` and `cU`.  `int` is instantiated with
  `Int`; the overflow of a fixed-width type is outside the model.
* A foreign operand (`std::vector`, `std::array` or another `ccomms::vector`) is
  used only through `size()` and `operator[]`, so it is a `List`.
-/

namespace ccomms

/-- Ways an operation can fail to return. -/
inductive Error where
  /-- A thrown `std::invalid_argument` with its message. -/
  | invalid_argument (what : String)
  /-- Undefined behaviour: unchecked access past the end of a container. -/
  | out_of_bounds
  /-- Undefined behaviour: integral division by zero. -/
  | division_by_zero
deriving DecidableEq

/-- The class `vector<T, N>`: the inherited container and the two orientation flags. -/
structure vector (T : Type) (N : Nat) where
  /-- The elements of the inherited `std::vector<T>` or `std::array<T, N>`. -/
  elems : List T
  is_row : Bool
  is_col : Bool
  /-- A `std::array<T, N>` has exactly `N` elements. -/
  fixed_len : N ≠ 0 → elems.length = N

section container

variable {T U : Type} {N : Nat}

/-- The member `size()` of the inherited container. -/
def vector.size (self : vector T N) : Nat :=
  self.elems.length

/-- Reading `other[i]` on a standard container: unchecked, undefined past the end. -/
def subscript (xs : List T) (i : Nat) : Except Error T :=
  match xs[i]? with
  | some x => .ok x
  | none => .error .out_of_bounds

/-- Reading `(*this)[i]`. -/
def vector.subscript (self : vector T N) (i : Nat) : Except Error T :=
  ccomms.subscript self.elems i

/-- Writing `(*this)[i] = x`: unchecked, undefined past the end. -/
def vector.store (self : vector T N) (i : Nat) (x : T) : Except Error (vector T N) :=
  if i < self.elems.length then
    .ok ⟨self.elems.set i x, self.is_row, self.is_col,
      fun hN => by rw [List.length_set]; exact self.fixed_len hN⟩
  else
    .error .out_of_bounds

/-- The fill constructor `vector(len, fill, vectype)`.
For `N == 0` the container is assigned `len` copies of the fill value.  For a
fixed length the value-initialised array gets the fill value written on its
first `len` places; `std::next(begin(), len)` past `end()` is undefined. -/
def vector.fill_ctor [Zero T] (conv : U → T) (len : Nat) (fill : U) (vectype : Char) :
    Except Error (vector T N) :=
  if hN : N = 0 then
    .ok ⟨List.replicate len (conv fill), vectype == 'r', vectype == 'c',
      fun h => absurd hN h⟩
  else if hlen : len ≤ N then
    .ok ⟨List.replicate len (conv fill) ++ List.replicate (N - len) 0,
      vectype == 'r', vectype == 'c',
      fun _ => by simp only [List.length_append, List.length_replicate]; omega⟩
  else
    .error .out_of_bounds

/-- The list constructor `vector(std::initializer_list<U> list, vectype)`. -/
def vector.list_ctor (conv : U → T) (list : List U) (vectype : Char) :
    Except Error (vector T N) :=
  if h : N ≠ 0 ∧ list.length ≠ N then
    .error (.invalid_argument
      "\nERR: fixed vector requires number of elements equal to its length")
  else
    .ok ⟨list.map conv, vectype == 'r', vectype == 'c',
      fun hN => by
        rw [List.length_map]
        exact Classical.not_not.mp (fun hne => h ⟨hN, hne⟩)⟩

end container

section arithmetic

variable {T U C : Type} {N : Nat}

/-- The built-in `/` of `int`: the quotient truncated toward zero, undefined for a
zero divisor. -/
def int_quot (x y : Int) : Except Error Int :=
  if y = 0 then .error .division_by_zero else .ok (Int.tdiv x y)

/-- The cross product `operator&`. -/
def vector.operator_and [Sub C] [Mul C] (cT : T → C) (cU : U → C)
    (self : vector T N) (other : List U) : Except Error (vector C N) :=
  if other.length ≠ 3 ∨ self.size ≠ 3 then
    .error (.invalid_argument "\nERR: cross product requires two 3D vectors\n")
  else do
    let x := cT (← self.subscript 1) * cU (← ccomms.subscript other 2)
      - cT (← self.subscript 2) * cU (← ccomms.subscript other 1)
    let y := cT (← self.subscript 2) * cU (← ccomms.subscript other 0)
      - cT (← self.subscript 0) * cU (← ccomms.subscript other 2)
    let z := cT (← self.subscript 0) * cU (← ccomms.subscript other 1)
      - cT (← self.subscript 1) * cU (← ccomms.subscript other 0)
    vector.list_ctor id [x, y, z] 'c'

/-- The inner product `operator|`. -/
def vector.operator_or [Zero C] [Add C] [Mul C] (cT : T → C) (cU : U → C)
    (self : vector T N) (other : List U) : Except Error C :=
  if other.length ≠ self.size then
    .error (.invalid_argument
      "\nERR: inner product requires vectors of the same length\n")
  else
    (List.range self.size).foldlM (fun (result : C) i => do
      let x ← self.subscript i
      let y ← ccomms.subscript other i
      pure (result + cT x * cU y)) 0

/-- Elementwise `operator+`. -/
def vector.operator_plus [Zero C] [Add C] (cT : T → C) (cU : U → C)
    (self : vector T N) (other : List U) : Except Error (vector C N) :=
  if other.length ≠ self.size then
    .error (.invalid_argument
      "\nERR: elementwise addition requires vectors of equal length\n")
  else do
    let result ← vector.fill_ctor id self.size (0 : C) 'c'
    (List.range self.size).foldlM (fun (result : vector C N) i => do
      let x ← self.subscript i
      let y ← ccomms.subscript other i
      result.store i (cT x + cU y)) result

/-- Elementwise `operator-`. -/
def vector.operator_minus [Zero C] [Sub C] (cT : T → C) (cU : U → C)
    (self : vector T N) (other : List U) : Except Error (vector C N) :=
  if other.length ≠ self.size then
    .error (.invalid_argument
      "\nERR: elementwise subtraction requires vectors of equal length\n")
  else do
    let result ← vector.fill_ctor id self.size (0 : C) 'c'
    (List.range self.size).foldlM (fun (result : vector C N) i => do
      let x ← self.subscript i
      let y ← ccomms.subscript other i
      result.store i (cT x - cU y)) result

/-- Elementwise `operator*`. -/
def vector.operator_star [Zero C] [Mul C] (cT : T → C) (cU : U → C)
    (self : vector T N) (other : List U) : Except Error (vector C N) :=
  if other.length ≠ self.size ∧ other.length ≠ 1 ∧ self.size ≠ 1 then
    .error (.invalid_argument
      "\nERR: elementwise multiplication requires vectors of equal length\n")
  else do
    let result ← vector.fill_ctor id self.size (0 : C) 'c'
    (List.range self.size).foldlM (fun (result : vector C N) i => do
      let x ← self.subscript i
      let y ← ccomms.subscript other i
      result.store i (cT x * cU y)) result

/-- Elementwise `operator/`; `quot` is the built-in `/` of the common type. -/
def vector.operator_slash [Zero C] (quot : C → C → Except Error C) (cT : T → C) (cU : U → C)
    (self : vector T N) (other : List U) : Except Error (vector C N) :=
  if other.length ≠ self.size ∧ other.length ≠ 1 ∧ self.size ≠ 1 then
    .error (.invalid_argument
      "\nERR: elementwise division requires vectors of equal length\n")
  else do
    let result ← vector.fill_ctor id self.size (0 : C) 'c'
    (List.range self.size).foldlM (fun (result : vector C N) i => do
      let x ← self.subscript i
      let y ← ccomms.subscript other i
      result.store i (← quot (cT x) (cU y))) result

end arithmetic

/-- The fixed-length test vector `vector<int, 3>{x, y, z}`. -/
def fixed3 (x y z : Int) : vector Int 3 :=
  ⟨[x, y, z], false, true, fun _ => rfl⟩

/-- The dynamic test vector `vector<int>` holding the given list. -/
def dynamic (xs : List Int) : vector Int 0 :=
  ⟨xs, false, true, fun h => absurd rfl h⟩

/-! ## The other constructors, assignment and the scalar operators

A member function that changes `*this` returns its outcome together with the
object as the call leaves it, so that the state after a thrown exception can be
stated. -/

section construction

variable {T U C : Type} {N : Nat}

/-- The constructor `explicit vector(const char &vectype = 'c')`: `container()` is
an empty `std::vector`, or a value-initialised `std::array<T, N>`. -/
def vector.default_ctor [Zero T] (vectype : Char) : vector T N :=
  ⟨List.replicate N 0, vectype == 'r', vectype == 'c',
    fun _ => List.length_replicate N 0⟩

/-- The conversion of a `std::size_t` or `int` argument to the `const char &`
parameter of `vector(const char &)`. -/
def char_of_size (n : Nat) : Char :=
  Char.ofNat (n % 256)

/-- The private member `init_copy(other, logic)`. -/
def vector.init_copy (conv : U → T) (self : vector T N) (other : List U) (logic : String) :
    Except Error Unit × vector T N :=
  if h : N ≠ 0 ∧ other.length ≠ N then
    (.error (.invalid_argument
      ("\nERR: fixed vector" ++ logic ++ " requires # of elements equal to its length")), self)
  else
    (.ok (), ⟨other.map conv, self.is_row, self.is_col,
      fun hN => by
        rw [List.length_map]
        exact Classical.not_not.mp (fun hne => h ⟨hN, hne⟩)⟩)

/-- The private member `init_move(other, logic)`; its argument is a reference to
const, so the elements are copied. -/
def vector.init_move (conv : U → T) (self : vector T N) (other : List U) (logic : String) :
    Except Error Unit × vector T N :=
  if h : N ≠ 0 ∧ other.length ≠ N then
    (.error (.invalid_argument
      ("\nERR: fixed vector" ++ logic ++ " requires # of elements equal to its length")), self)
  else
    (.ok (), ⟨other.map conv, self.is_row, self.is_col,
      fun hN => by
        rw [List.length_map]
        exact Classical.not_not.mp (fun hne => h ⟨hN, hne⟩)⟩)

/-- A constructor whose body throws constructs no object. -/
def constructed {σ : Type} (r : Except Error Unit × σ) : Except Error σ :=
  match r.1 with
  | .ok _ => .ok r.2
  | .error e => .error e

/-- The copy constructor `explicit vector(const V &other, vectype)`. -/
def vector.copy_ctor [Zero T] (conv : U → T) (other : List U) (vectype : Char) :
    Except Error (vector T N) :=
  constructed ((vector.default_ctor vectype : vector T N).init_copy conv other "constructor")

/-- The move constructor `explicit vector(V &&other, vectype)`. -/
def vector.move_ctor [Zero T] (conv : U → T) (other : List U) (vectype : Char) :
    Except Error (vector T N) :=
  constructed ((vector.default_ctor vectype : vector T N).init_move conv other "constructor")

/-- Copy assignment `operator=(const V &other)`. -/
def vector.operator_assign_copy (conv : U → T) (self : vector T N) (other : List U) :
    Except Error Unit × vector T N :=
  self.init_copy conv other "assignment"

/-- Move assignment `operator=(const V &&other)`. -/
def vector.operator_assign_move (conv : U → T) (self : vector T N) (other : List U) :
    Except Error Unit × vector T N :=
  self.init_move conv other "assignment"

/-- Scalar `operator+`.  The declaration `result(this->size())` has one argument
of type `std::size_t`, for which the only viable constructor is
`vector(const char &)`. -/
def vector.operator_plus_scalar [Zero C] [Add C] (cT : T → C) (cU : U → C)
    (self : vector T N) (scalar : U) : Except Error (vector C N) :=
  let result : vector C N := vector.default_ctor (char_of_size self.size)
  (List.range self.size).foldlM (fun (result : vector C N) i => do
    let x ← self.subscript i
    result.store i (cT x + cU scalar)) result

/-- Scalar `operator-`. -/
def vector.operator_minus_scalar [Zero C] [Sub C] (cT : T → C) (cU : U → C)
    (self : vector T N) (scalar : U) : Except Error (vector C N) :=
  let result : vector C N := vector.default_ctor (char_of_size self.size)
  (List.range self.size).foldlM (fun (result : vector C N) i => do
    let x ← self.subscript i
    result.store i (cT x - cU scalar)) result

/-- Scalar `operator*`. -/
def vector.operator_star_scalar [Zero C] [Mul C] (cT : T → C) (cU : U → C)
    (self : vector T N) (scalar : U) : Except Error (vector C N) :=
  let result : vector C N := vector.default_ctor (char_of_size self.size)
  (List.range self.size).foldlM (fun (result : vector C N) i => do
    let x ← self.subscript i
    result.store i (cT x * cU scalar)) result

/-- Scalar `operator/`; `quot` is the built-in `/` of the common type. -/
def vector.operator_slash_scalar [Zero C] (quot : C → C → Except Error C)
    (cT : T → C) (cU : U → C) (self : vector T N) (scalar : U) :
    Except Error (vector C N) :=
  let result : vector C N := vector.default_ctor (char_of_size self.size)
  (List.range self.size).foldlM (fun (result : vector C N) i => do
    let x ← self.subscript i
    result.store i (← quot (cT x) (cU scalar))) result

end construction

/-! ## The coordinate classes of `src/modules/coords/types.hpp`

Each class derives from the dynamic `vector<T>` and declares its named fields
as data members of type `T` with a default member initialiser, `T x =
(*this)[0];`.  A constructor runs the base constructor, then the member
initialisers, then its body.  The branch `if constexpr (std::is_same_v<T, U>)`
of the assignment operators is selected by the flag `is_same`. -/

/-- Runs `k` on the object left by `r` when `r` returned normally. -/
def and_then {σ : Type} (r : Except Error Unit × σ) (k : σ → Except Error Unit × σ) :
    Except Error Unit × σ :=
  match r.1 with
  | .ok _ => k r.2
  | .error e => (.error e, r.2)

/-- The class `cartesian<T>`. -/
structure cartesian (T : Type) where
  /-- The base class subobject `vector<T>`. -/
  base : vector T 0
  x : T
  y : T
  z : T

/-- The class `spherical<T>`. -/
structure spherical (T : Type) where
  /-- The base class subobject `vector<T>`. -/
  base : vector T 0
  az : T
  el : T

/-- The class `geodetic<T>`. -/
structure geodetic (T : Type) where
  /-- The base class subobject `vector<T>`. -/
  base : vector T 0
  lat : T
  lon : T

section coords

variable {T U : Type}

/-- The member initialisers of `cartesian`, run on the constructed base. -/
def cartesian.init_members (base : vector T 0) : Except Error (cartesian T) := do
  let x ← base.subscript 0
  let y ← base.subscript 1
  let z ← base.subscript 2
  pure ⟨base, x, y, z⟩

/-- The constructor `cartesian() : vector<T>(3) {}`; the `int` argument selects
`vector(const char &)`. -/
def cartesian.default_ctor [Zero T] : Except Error (cartesian T) :=
  cartesian.init_members (vector.default_ctor (char_of_size 3))

/-- The constructor `cartesian(const U &x, const U &y, const U &z)`. -/
def cartesian.values_ctor (conv : U → T) (x y z : U) : Except Error (cartesian T) := do
  let base ← vector.list_ctor conv [x, y, z] 'c'
  cartesian.init_members base

/-- The constructor `explicit cartesian(const std::vector<U> &vec)`. -/
def cartesian.copy_ctor [Zero T] (conv : U → T) (vec : List U) : Except Error (cartesian T) := do
  let base ← vector.copy_ctor conv vec 'c'
  let self ← cartesian.init_members base
  if vec.length ≠ 3 then
    throw (.invalid_argument "cartesian copy constructor source must have exactly 3 elements")
  pure self

/-- The constructor `explicit cartesian(std::vector<U> &&vec)`. -/
def cartesian.move_ctor [Zero T] (conv : U → T) (vec : List U) : Except Error (cartesian T) := do
  let base ← vector.move_ctor conv vec 'c'
  let self ← cartesian.init_members base
  if self.base.size ≠ 3 then
    throw (.invalid_argument "cartesian move constructor source must have exactly 3 elements")
  pure self

/-- The indexed write `c[i] = v` through the inherited `operator[]`. -/
def cartesian.store (self : cartesian T) (i : Nat) (v : T) : Except Error Unit × cartesian T :=
  match self.base.store i v with
  | .ok b => (.ok (), { self with base := b })
  | .error e => (.error e, self)

/-- The statement `vector<T>::operator=(tmp)` of the assignment operators: the
temporary is an rvalue, so the base's `operator=(const V &&)` is called on the
base subobject. -/
def cartesian.assign_base (conv : U → T) (self : cartesian T) (tmp : Except Error (cartesian U)) :
    Except Error Unit × cartesian T :=
  match tmp with
  | .error e => (.error e, self)
  | .ok t =>
    let r := self.base.operator_assign_move conv t.base.elems
    (r.1, { self with base := r.2 })

/-- Copy assignment `cartesian<T> &operator=(const V<U> &other)`. -/
def cartesian.operator_assign_copy (is_same : Bool) (conv : U → T) (self : cartesian T)
    (other : List U) : Except Error Unit × cartesian T :=
  if other.length ≠ 3 then
    (.error (.invalid_argument
      "cartesian assignment operator source must have exactly 3 elements"), self)
  else
    match subscript other 0, subscript other 1, subscript other 2 with
    | .ok o0, .ok o1, .ok o2 =>
      if is_same then
        self.assign_base conv (cartesian.values_ctor id o0 o1 o2)
      else
        and_then (and_then (self.store 0 (conv o0)) (fun c => c.store 1 (conv o1)))
          (fun c => c.store 2 (conv o2))
    | _, _, _ => (.error .out_of_bounds, self)

/-- Move assignment `cartesian<T> &operator=(V<U> &&other)`. -/
def cartesian.operator_assign_move (is_same : Bool) (conv : U → T) (self : cartesian T)
    (other : List U) : Except Error Unit × cartesian T :=
  if other.length ≠ 3 then
    (.error (.invalid_argument
      "cartesian move operator source must have exactly 3 elements"), self)
  else
    match subscript other 0, subscript other 1, subscript other 2 with
    | .ok o0, .ok o1, .ok o2 =>
      if is_same then
        self.assign_base conv (cartesian.values_ctor id o0 o1 o2)
      else
        and_then (and_then (self.store 0 (conv o0)) (fun c => c.store 1 (conv o1)))
          (fun c => c.store 2 (conv o2))
    | _, _, _ => (.error .out_of_bounds, self)

/-- The member initialisers of `spherical`, run on the constructed base. -/
def spherical.init_members (base : vector T 0) : Except Error (spherical T) := do
  let az ← base.subscript 0
  let el ← base.subscript 1
  pure ⟨base, az, el⟩

/-- The constructor `spherical() : vector<T>(2) {}`. -/
def spherical.default_ctor [Zero T] : Except Error (spherical T) :=
  spherical.init_members (vector.default_ctor (char_of_size 2))

/-- The constructor `spherical(const U &az, const U &el)`. -/
def spherical.values_ctor (conv : U → T) (az el : U) : Except Error (spherical T) := do
  let base ← vector.list_ctor conv [az, el] 'c'
  spherical.init_members base

/-- The constructor `explicit spherical(const std::vector<U> &vec)`. -/
def spherical.copy_ctor [Zero T] (conv : U → T) (vec : List U) : Except Error (spherical T) := do
  let base ← vector.copy_ctor conv vec 'c'
  let self ← spherical.init_members base
  if vec.length ≠ 2 then
    throw (.invalid_argument
      "\nERR: spherical copy constructor source must have exactly 2 elements\n")
  pure self

/-- The constructor `explicit spherical(std::vector<U> &&vec)`. -/
def spherical.move_ctor [Zero T] (conv : U → T) (vec : List U) : Except Error (spherical T) := do
  let base ← vector.move_ctor conv vec 'c'
  let self ← spherical.init_members base
  if self.base.size ≠ 2 then
    throw (.invalid_argument
      "\nERR: spherical move constructor source must have exactly 2 elements\n")
  pure self

/-- The member initialisers of `geodetic`, run on the constructed base. -/
def geodetic.init_members (base : vector T 0) : Except Error (geodetic T) := do
  let lat ← base.subscript 0
  let lon ← base.subscript 1
  pure ⟨base, lat, lon⟩

/-- The two range checks shared by every constructor and assignment operator of
`geodetic`, on the values they are applied to. -/
def geodetic.check_range [LinearOrderedRing U] (lat lon : U) : Except Error Unit :=
  if lat > 90 ∨ lat < -90 then
    .error (.invalid_argument "ERR: geodetic lat must be between -90 and 90")
  else if lon > 180 ∨ lon < -180 then
    .error (.invalid_argument "ERR: geodetic lon must be between -180 and 180")
  else
    .ok ()

/-- The constructor `geodetic() : vector<T>(2) {}`. -/
def geodetic.default_ctor [Zero T] : Except Error (geodetic T) :=
  geodetic.init_members (vector.default_ctor (char_of_size 2))

/-- The constructor `geodetic(const U &lat, const U &lon)`; its body checks the
parameters, which hide the members of the same names. -/
def geodetic.values_ctor [LinearOrderedRing U] (conv : U → T) (lat lon : U) :
    Except Error (geodetic T) := do
  let base ← vector.list_ctor conv [lat, lon] 'c'
  let self ← geodetic.init_members base
  geodetic.check_range lat lon
  pure self

/-- The constructor `explicit geodetic(const std::vector<U> &vec)`; its body
checks the members `lat` and `lon`. -/
def geodetic.copy_ctor [LinearOrderedRing T] (conv : U → T) (vec : List U) :
    Except Error (geodetic T) := do
  let base ← vector.copy_ctor conv vec 'c'
  let self ← geodetic.init_members base
  if vec.length ≠ 2 then
    throw (.invalid_argument
      "\nERR: geodetic copy constructor source must have exactly 2 elements\n")
  geodetic.check_range self.lat self.lon
  pure self

/-- The constructor `explicit geodetic(std::vector<U> &&vec)`. -/
def geodetic.move_ctor [LinearOrderedRing T] (conv : U → T) (vec : List U) :
    Except Error (geodetic T) := do
  let base ← vector.move_ctor conv vec 'c'
  let self ← geodetic.init_members base
  if self.base.size ≠ 2 then
    throw (.invalid_argument
      "\nERR: geodetic move constructor source must have exactly 2 elements\n")
  geodetic.check_range self.lat self.lon
  pure self

/-- The indexed write `g[i] = v` through the inherited `operator[]`. -/
def geodetic.store (self : geodetic T) (i : Nat) (v : T) : Except Error Unit × geodetic T :=
  match self.base.store i v with
  | .ok b => (.ok (), { self with base := b })
  | .error e => (.error e, self)

/-- The statement `vector<T>::operator=(tmp)` of the assignment operators. -/
def geodetic.assign_base (conv : U → T) (self : geodetic T) (tmp : Except Error (geodetic U)) :
    Except Error Unit × geodetic T :=
  match tmp with
  | .error e => (.error e, self)
  | .ok t =>
    let r := self.base.operator_assign_move conv t.base.elems
    (r.1, { self with base := r.2 })

/-- Copy assignment `geodetic<T> &operator=(const V<U> &other)`.  The
`static_assert(other.size() == 2)` admits only a source of two elements, given
here as `other0` and `other1`. -/
def geodetic.operator_assign_copy [LinearOrderedRing U] (is_same : Bool) (conv : U → T)
    (self : geodetic T) (other0 other1 : U) : Except Error Unit × geodetic T :=
  match geodetic.check_range other0 other1 with
  | .error e => (.error e, self)
  | .ok _ =>
    if is_same then
      self.assign_base conv (geodetic.values_ctor id other0 other1)
    else
      and_then (self.store 0 (conv other0)) (fun g => g.store 1 (conv other1))

/-- Move assignment `geodetic<T> &operator=(V<U> &&other)`. -/
def geodetic.operator_assign_move [LinearOrderedRing U] (is_same : Bool) (conv : U → T)
    (self : geodetic T) (other0 other1 : U) : Except Error Unit × geodetic T :=
  match geodetic.check_range other0 other1 with
  | .error e => (.error e, self)
  | .ok _ =>
    if is_same then
      self.assign_base conv (geodetic.values_ctor id other0 other1)
    else
      and_then (self.store 0 (conv other0)) (fun g => g.store 1 (conv other1))

/-- The bounds of the data model on a latitude and a longitude. -/
def geodetic.in_range [LinearOrderedRing T] (lat lon : T) : Prop :=
  -90 ≤ lat ∧ lat ≤ 90 ∧ -180 ≤ lon ∧ lon ≤ 180

instance geodetic.in_range_decidable [LinearOrderedRing T] (lat lon : T) :
    Decidable (geodetic.in_range lat lon) :=
  inferInstanceAs (Decidable (-90 ≤ lat ∧ lat ≤ 90 ∧ -180 ≤ lon ∧ lon ≤ 180))

/-- The range invariant of the data model: exactly two stored elements within
the bounds, and named fields within the bounds. -/
def geodetic.range_invariant [LinearOrderedRing T] (g : geodetic T) : Prop :=
  (∃ e0 e1, g.base.elems = [e0, e1] ∧ geodetic.in_range e0 e1) ∧
    geodetic.in_range g.lat g.lon

end coords

/-- The test object `cartesian<int>(x, y, z)`. -/
def cart (x y z : Int) : cartesian Int :=
  ⟨dynamic [x, y, z], x, y, z⟩

/-- The test object `geodetic<int>(lat, lon)`. -/
def geo (lat lon : Int) : geodetic Int :=
  ⟨dynamic [lat, lon], lat, lon⟩

/-! ## Reading, writing and the two loops -/

section loops

variable {T U C : Type} {N : Nat}

theorem subscript_of_lt (xs : List T) (i : Nat) (h : i < xs.length) :
    subscript xs i = .ok xs[i] := by
  simp [subscript, List.getElem?_eq_getElem h]

theorem subscript_of_le (xs : List T) (i : Nat) (h : xs.length ≤ i) :
    subscript xs i = .error .out_of_bounds := by
  simp [subscript, List.getElem?_eq_none h]

theorem vector.read_of_lt (self : vector T N) (i : Nat) (h : i < self.elems.length) :
    self.subscript i = .ok self.elems[i] :=
  ccomms.subscript_of_lt self.elems i h

/-- Two containers with the same elements and the same flags are the same. -/
theorem vector.eq_of_fields (v w : vector T N) (he : v.elems = w.elems)
    (hr : v.is_row = w.is_row) (hc : v.is_col = w.is_col) : v = w := by
  cases v; cases w; simp_all

/-- Writing the element after a finished prefix extends the prefix by one. -/
theorem set_after_take (vals old : List C) (k : Nat) (hk : k < vals.length)
    (hlen : old.length = vals.length) :
    (vals.take k ++ old.drop k).set k vals[k] = vals.take (k + 1) ++ old.drop (k + 1) := by
  have hk2 : k < old.length := by omega
  have htk : (vals.take k).length = k := by rw [List.length_take]; omega
  rw [List.set_append_right k _ (by omega), htk, Nat.sub_self,
    List.drop_eq_getElem_cons hk2, List.set_cons_zero, List.take_succ,
    List.getElem?_eq_getElem hk]
  simp only [Option.toList, List.append_assoc, List.singleton_append]

/-- A loop `for (i = 0; i < n; i++) result[i] = vals[i];`, whatever way its body
computes the value it stores, leaves `vals` in `result` and keeps its flags. -/
theorem store_loop (vals : List C) (body : vector C N → Nat → Except Error (vector C N))
    (hbody : ∀ (res : vector C N) (i : Nat) (h : i < vals.length),
      res.size = vals.length → body res i = res.store i vals[i])
    (r : vector C N) (hr : r.size = vals.length) :
    ∀ k, k ≤ vals.length → ∃ r', (List.range k).foldlM body r = .ok r' ∧
      r'.elems = vals.take k ++ r.elems.drop k ∧
      r'.is_row = r.is_row ∧ r'.is_col = r.is_col := by
  intro k
  induction k with
  | zero => intro _; exact ⟨r, rfl, by simp, rfl, rfl⟩
  | succ k ih =>
    intro hk
    obtain ⟨r', hfold, helems, hrow, hcol⟩ := ih (by omega)
    have hsize : r'.size = vals.length := by
      have h1 : r.elems.length = vals.length := hr
      simp only [vector.size, helems, List.length_append, List.length_take, List.length_drop]
      omega
    have hlt : k < r'.elems.length := by
      have : r'.elems.length = vals.length := hsize
      omega
    refine ⟨⟨r'.elems.set k vals[k], r'.is_row, r'.is_col,
      fun hN => by rw [List.length_set]; exact r'.fixed_len hN⟩, ?_, ?_, hrow, hcol⟩
    · rw [List.range_succ, List.foldlM_append, hfold]
      simp only [List.foldlM_cons, List.foldlM_nil, bind, Except.bind, pure, Except.pure]
      rw [hbody r' k (by omega) hsize]
      simp [vector.store, hlt]
    · show r'.elems.set k vals[k] = _
      rw [helems]
      exact set_after_take vals r.elems k (by omega) hr

/-- The result container of an elementwise operator: `size` copies of zero,
oriented as a column. -/
theorem fill_ctor_size (self : vector T N) [Zero C] :
    ∃ r : vector C N, vector.fill_ctor id self.size (0 : C) 'c' = .ok r ∧
      r.elems = List.replicate self.size 0 ∧ r.is_row = false ∧ r.is_col = true := by
  unfold vector.fill_ctor
  by_cases hN : N = 0
  · simp only [hN, dite_true]
    exact ⟨_, rfl, rfl, rfl, rfl⟩
  · have hlen : self.size = N := self.fixed_len hN
    simp only [hN, dite_false, hlen, le_refl, dite_true]
    exact ⟨_, rfl, by simp, rfl, rfl⟩

end loops

section elementwise

variable {T U C : Type} {N : Nat}

theorem subscript_ok_iff (xs : List T) (i : Nat) (x : T) :
    subscript xs i = .ok x ↔ xs[i]? = some x := by
  unfold subscript
  cases h : xs[i]? <;> simp

/-- Reading an index of a zipped list reads both lists at it. -/
theorem subscript_zipWith (g : T → U → C) (a : List T) (b : List U) (i : Nat) (x : T) (y : U)
    (hx : subscript a i = .ok x) (hy : subscript b i = .ok y) :
    subscript (List.zipWith g a b) i = .ok (g x y) := by
  rw [subscript_ok_iff] at hx hy ⊢
  simp [List.getElem?_zipWith, hx, hy]

/-- The common shape of the four elementwise operators once the length guard is
passed with equal lengths: a zero-filled result, then one store per index. -/
theorem elementwise_loop [Zero C] (g : T → U → C)
    (body : vector C N → Nat → Except Error (vector C N))
    (a : vector T N) (b : List U) (h : b.length = a.size)
    (hbody : ∀ (res : vector C N) (i : Nat) (x : T) (y : U),
      a.subscript i = .ok x → subscript b i = .ok y → body res i = res.store i (g x y)) :
    ∃ r, (vector.fill_ctor id a.size (0 : C) 'c' >>= fun result =>
        (List.range a.size).foldlM body result) = .ok r ∧
      r.elems = List.zipWith g a.elems b ∧ r.is_row = false ∧ r.is_col = true := by
  obtain ⟨r0, hfill, helems0, hrow0, hcol0⟩ := fill_ctor_size (C := C) a
  have hlen : (List.zipWith g a.elems b).length = a.size := by
    simp only [List.length_zipWith, h, vector.size, Nat.min_self]
  have hr0 : r0.size = (List.zipWith g a.elems b).length := by
    rw [hlen]; simp [vector.size, helems0]
  obtain ⟨r, hfold, helems, hrow, hcol⟩ :=
    store_loop (List.zipWith g a.elems b) body
      (fun res i hi _ => by
        rw [hlen] at hi
        have hia : i < a.elems.length := hi
        have hib : i < b.length := by rw [h]; exact hi
        rw [hbody res i a.elems[i] b[i] (a.read_of_lt i hia) (subscript_of_lt b i hib),
          List.getElem_zipWith])
      r0 hr0 a.size (by rw [hlen])
  refine ⟨r, ?_, ?_, hrow.trans hrow0, hcol.trans hcol0⟩
  · rw [hfill]; exact hfold
  · rw [helems, List.take_of_length_le (by rw [hlen]), List.drop_of_length_le, List.append_nil]
    rw [helems0, List.length_replicate]

/-- The inner-product loop accumulates the pairwise products in index order. -/
theorem inner_loop [Zero C] [Add C] [Mul C] (cT : T → C) (cU : U → C)
    (a : vector T N) (b : List U) (h : b.length = a.size) :
    ∀ k, k ≤ a.size →
      (List.range k).foldlM (fun (result : C) i => do
        let x ← a.subscript i
        let y ← ccomms.subscript b i
        pure (result + cT x * cU y)) 0
      = .ok (((List.zipWith (fun x y => cT x * cU y) a.elems b).take k).foldl (· + ·) 0) := by
  intro k
  induction k with
  | zero => intro _; rfl
  | succ k ih =>
    intro hk
    have hia : k < a.elems.length := hk
    have hib : k < b.length := by rw [h]; exact hk
    have hz : k < (List.zipWith (fun x y => cT x * cU y) a.elems b).length := by
      simp only [List.length_zipWith]; omega
    rw [List.range_succ, List.foldlM_append, ih (by omega)]
    simp only [List.foldlM_cons, List.foldlM_nil, bind, Except.bind, pure, Except.pure,
      a.read_of_lt k hia, subscript_of_lt b k hib]
    rw [List.take_succ, List.getElem?_eq_getElem hz, List.foldl_append, List.getElem_zipWith]
    rfl

end elementwise

/-! ## The cross product and the inner product -/

section products

variable {T U C : Type} {N : Nat}

/-- The cross product of two 3-element operands: the arity guard is passed, the
six reads are in range and the list constructor accepts the three values. -/
theorem operator_and_of_three [Sub C] [Mul C] (cT : T → C) (cU : U → C)
    (a : vector T N) (b : List U) (x1 y1 z1 : T) (x2 y2 z2 : U)
    (ha : a.elems = [x1, y1, z1]) (hb : b = [x2, y2, z2]) :
    ∃ r, a.operator_and cT cU b = .ok r ∧ r.size = 3 ∧
      r.elems = [cT y1 * cU z2 - cT z1 * cU y2,
                 cT z1 * cU x2 - cT x1 * cU z2,
                 cT x1 * cU y2 - cT y1 * cU x2] := by
  subst hb
  have hN : ¬ (N ≠ 0 ∧ 3 ≠ N) := by
    rintro ⟨h0, h3⟩
    have := a.fixed_len h0
    rw [ha] at this
    exact h3 this
  refine ⟨⟨[cT y1 * cU z2 - cT z1 * cU y2, cT z1 * cU x2 - cT x1 * cU z2,
      cT x1 * cU y2 - cT y1 * cU x2], false, true, fun h0 => ?_⟩, ?_, rfl, rfl⟩
  · have := a.fixed_len h0
    rw [ha] at this
    exact this
  · simp [vector.operator_and, vector.size, vector.subscript, subscript, ha,
      vector.list_ctor, hN, bind, Except.bind]

/-- C1. For 3-element operands `a = (x1, y1, z1)` and `b = (x2, y2, z2)` the cross
product `a & b` returns a container of length 3 holding
`(y1*z2 - z1*y2, z1*x2 - x1*z2, x1*y2 - y1*x2)`, computed in the common type. -/
theorem cross_product_formula [Sub C] [Mul C] (cT : T → C) (cU : U → C)
    (a : vector T N) (b : List U) (x1 y1 z1 : T) (x2 y2 z2 : U)
    (ha : a.elems = [x1, y1, z1]) (hb : b = [x2, y2, z2]) :
    ∃ r, a.operator_and cT cU b = .ok r ∧ r.size = 3 ∧
      r.elems = [cT y1 * cU z2 - cT z1 * cU y2,
                 cT z1 * cU x2 - cT x1 * cU z2,
                 cT x1 * cU y2 - cT y1 * cU x2] :=
  operator_and_of_three cT cU a b x1 y1 z1 x2 y2 z2 ha hb

/-- The instance of C1 checked by the tests: `(1,2,3) & (4,5,6) = (-3, 6, -3)`. -/
theorem cross_product_formula_witness :
    (fixed3 1 2 3).elems = [1, 2, 3] ∧ ([4, 5, 6] : List Int) = [4, 5, 6] ∧
    ∃ r, (fixed3 1 2 3).operator_and id id [4, 5, 6] = .ok r ∧ r.size = 3 ∧
      r.elems = [-3, 6, -3] :=
  ⟨rfl, rfl, cross_product_formula id id (fixed3 1 2 3) [4, 5, 6] 1 2 3 4 5 6 rfl rfl⟩

/-- C2. The cross product `a & b` throws its invalid-argument (arity) error exactly
when `a` or `b` does not have length 3, and returns a container otherwise; so it
rejects operands of equal length other than 3, and a 3-element with a 4-element
operand. -/
theorem cross_product_arity [Sub C] [Mul C] (cT : T → C) (cU : U → C)
    (a : vector T N) (b : List U) :
    (a.operator_and cT cU b
        = .error (.invalid_argument "\nERR: cross product requires two 3D vectors\n")
      ↔ (a.size ≠ 3 ∨ b.length ≠ 3)) ∧
    ((∃ r, a.operator_and cT cU b = .ok r) ↔ (a.size = 3 ∧ b.length = 3)) := by
  by_cases hg : b.length ≠ 3 ∨ a.size ≠ 3
  · have hres : a.operator_and cT cU b
        = .error (.invalid_argument "\nERR: cross product requires two 3D vectors\n") := by
      simp only [vector.operator_and, hg, if_true]
    rw [hres]
    refine ⟨⟨fun _ => hg.symm, fun _ => rfl⟩, ⟨?_, ?_⟩⟩
    · rintro ⟨r, hr⟩; cases hr
    · rintro ⟨h1, h2⟩
      rcases hg with h | h
      · exact absurd h2 h
      · exact absurd h1 h
  · have hb : b.length = 3 := by
      by_contra h; exact hg (Or.inl h)
    have ha : a.size = 3 := by
      by_contra h; exact hg (Or.inr h)
    obtain ⟨x1, y1, z1, hae⟩ : ∃ x1 y1 z1, a.elems = [x1, y1, z1] :=
      List.length_eq_three.mp ha
    obtain ⟨x2, y2, z2, hbe⟩ : ∃ x2 y2 z2, b = [x2, y2, z2] :=
      List.length_eq_three.mp hb
    obtain ⟨r, hr, -, -⟩ := operator_and_of_three cT cU a b x1 y1 z1 x2 y2 z2 hae hbe
    rw [hr]
    refine ⟨⟨fun h => (by cases h), ?_⟩, ⟨fun _ => ⟨ha, hb⟩, fun _ => ⟨r, rfl⟩⟩⟩
    rintro (h | h)
    · exact absurd ha h
    · exact absurd hb h

/-- The instances of C2: a 3-element against a 4-element operand, as in the
tests, and two operands of equal length 2. -/
theorem cross_product_arity_witness :
    (fixed3 1 2 3).operator_and id id [1, 2, 3, 4]
      = .error (.invalid_argument "\nERR: cross product requires two 3D vectors\n") ∧
    (dynamic [1, 2]).operator_and id id [3, 4]
      = .error (.invalid_argument "\nERR: cross product requires two 3D vectors\n") :=
  ⟨(cross_product_arity id id (fixed3 1 2 3) [1, 2, 3, 4]).1.mpr (Or.inr (by decide)),
   (cross_product_arity id id (dynamic [1, 2]) [3, 4]).1.mpr (Or.inl (by decide))⟩

/-- The inner product of operands of equal length: the guard is passed and the
loop runs over every index. -/
theorem operator_or_of_length_eq [Zero C] [Add C] [Mul C] (cT : T → C) (cU : U → C)
    (a : vector T N) (b : List U) (h : b.length = a.size) :
    a.operator_or cT cU b
      = .ok ((List.zipWith (fun x y => cT x * cU y) a.elems b).foldl (· + ·) 0) := by
  have hz : (List.zipWith (fun x y => cT x * cU y) a.elems b).length ≤ a.size := by
    simp only [List.length_zipWith, h, vector.size, Nat.min_self, le_refl]
  unfold vector.operator_or
  rw [if_neg (not_not.mpr h), inner_loop cT cU a b h a.size (le_refl _),
    List.take_of_length_le hz]

/-- C3. For operands of equal length the inner product `a | b` returns the sum of
the products `C(a[i]) * C(b[i])`, accumulated from zero in index order in the
common type (so it is zero for empty operands). -/
theorem inner_product_sum [Zero C] [Add C] [Mul C] (cT : T → C) (cU : U → C)
    (a : vector T N) (b : List U) (h : b.length = a.size) :
    a.operator_or cT cU b
      = .ok ((List.zipWith (fun x y => cT x * cU y) a.elems b).foldl (· + ·) 0) :=
  operator_or_of_length_eq cT cU a b h

/-- The instance of C3 checked by the tests, with the `double` operand read as
exact rationals: `(1,2,3) | (4.5,6.7,8.9) = 44.6`. -/
theorem inner_product_sum_witness :
    ([9 / 2, 67 / 10, 89 / 10] : List ℚ).length = (fixed3 1 2 3).size ∧
    (fixed3 1 2 3).operator_or (fun n : Int => (n : ℚ)) id [9 / 2, 67 / 10, 89 / 10]
      = .ok (446 / 10) := by
  refine ⟨rfl, ?_⟩
  rw [inner_product_sum (fun n : Int => (n : ℚ)) id (fixed3 1 2 3) [9 / 2, 67 / 10, 89 / 10] rfl]
  simp only [fixed3, List.zipWith_cons_cons, List.zipWith_nil_right, List.foldl_cons,
    List.foldl_nil, id]
  norm_num

/-- C4. The inner product `a | b` throws exactly when the operands differ in
length, the error being the invalid-argument error with the message
`"\nERR: inner product requires vectors of the same length\n"`, and returns a
value otherwise; the container may be fixed-length or dynamic. -/
theorem inner_product_length_mismatch [Zero C] [Add C] [Mul C] (cT : T → C) (cU : U → C)
    (a : vector T N) (b : List U) :
    (a.operator_or cT cU b
        = .error (.invalid_argument
            "\nERR: inner product requires vectors of the same length\n")
      ↔ b.length ≠ a.size) ∧
    ((∃ c, a.operator_or cT cU b = .ok c) ↔ b.length = a.size) := by
  by_cases h : b.length = a.size
  · rw [operator_or_of_length_eq cT cU a b h]
    exact ⟨⟨fun e => (by cases e), fun hne => absurd h hne⟩, ⟨fun _ => h, fun _ => ⟨_, rfl⟩⟩⟩
  · have hres : a.operator_or cT cU b
        = .error (.invalid_argument
            "\nERR: inner product requires vectors of the same length\n") := by
      simp only [vector.operator_or, ne_eq, h, not_false_eq_true, if_true]
    rw [hres]
    refine ⟨⟨fun _ => h, fun _ => rfl⟩, ⟨?_, fun e => absurd e h⟩⟩
    rintro ⟨c, hc⟩
    cases hc

/-- The instances of C4 checked by the tests: a fixed-length and a dynamic `a` of
length 3 against `d` of length 4. -/
theorem inner_product_length_mismatch_witness :
    (fixed3 1 2 3).operator_or id id [1, 2, 3, 4]
      = .error (.invalid_argument
          "\nERR: inner product requires vectors of the same length\n") ∧
    (dynamic [1, 2, 3]).operator_or id id [1, 2, 3, 4]
      = .error (.invalid_argument
          "\nERR: inner product requires vectors of the same length\n") :=
  ⟨(inner_product_length_mismatch id id (fixed3 1 2 3) [1, 2, 3, 4]).1.mpr (by decide),
   (inner_product_length_mismatch id id (dynamic [1, 2, 3]) [1, 2, 3, 4]).1.mpr (by decide)⟩

end products

/-! ## The elementwise operators -/

section elementwise_claims

variable {T U C : Type} {N : Nat}

/-- What the callers of `elementwise_loop` state: the length of the result, its
elements as a list and its elements index by index. -/
theorem elementwise_spec [Zero C] (g : T → U → C)
    (body : vector C N → Nat → Except Error (vector C N))
    (a : vector T N) (b : List U) (h : b.length = a.size)
    (hbody : ∀ (res : vector C N) (i : Nat) (x : T) (y : U),
      a.subscript i = .ok x → subscript b i = .ok y → body res i = res.store i (g x y)) :
    ∃ r, (vector.fill_ctor id a.size (0 : C) 'c' >>= fun result =>
        (List.range a.size).foldlM body result) = .ok r ∧
      r.size = a.size ∧ r.elems = List.zipWith g a.elems b ∧
      ∀ (i : Nat) (x : T) (y : U), a.subscript i = .ok x → subscript b i = .ok y →
        r.subscript i = .ok (g x y) := by
  obtain ⟨r, hr, helems, -, -⟩ := elementwise_loop g body a b h hbody
  refine ⟨r, hr, ?_, helems, ?_⟩
  · simp only [vector.size, helems, List.length_zipWith, h, Nat.min_self]
  · intro i x y hx hy
    unfold vector.subscript
    rw [helems]
    exact subscript_zipWith g a.elems b i x y hx hy

/-- Elementwise addition and subtraction of operands of equal length. -/
theorem operator_plus_minus_of_length_eq [Zero C] [Add C] [Sub C] (cT : T → C) (cU : U → C)
    (a : vector T N) (b : List U) (h : b.length = a.size) :
    (∃ r, a.operator_plus cT cU b = .ok r ∧ r.size = a.size ∧
      r.elems = List.zipWith (fun x y => cT x + cU y) a.elems b ∧
      ∀ (i : Nat) (x : T) (y : U), a.subscript i = .ok x → subscript b i = .ok y →
        r.subscript i = .ok (cT x + cU y)) ∧
    (∃ r, a.operator_minus cT cU b = .ok r ∧ r.size = a.size ∧
      r.elems = List.zipWith (fun x y => cT x - cU y) a.elems b ∧
      ∀ (i : Nat) (x : T) (y : U), a.subscript i = .ok x → subscript b i = .ok y →
        r.subscript i = .ok (cT x - cU y)) := by
  constructor
  · unfold vector.operator_plus
    rw [if_neg (not_not.mpr h)]
    exact elementwise_spec (fun x y => cT x + cU y) _ a b h
      (fun res i x y hx hy => by simp only [hx, hy, bind, Except.bind])
  · unfold vector.operator_minus
    rw [if_neg (not_not.mpr h)]
    exact elementwise_spec (fun x y => cT x - cU y) _ a b h
      (fun res i x y hx hy => by simp only [hx, hy, bind, Except.bind])

/-- C5. For operands of equal length, `a + b` and `a - b` return a container of
that length whose element at every index `i` is `C(a[i]) + C(b[i])`, resp.
`C(a[i]) - C(b[i])`, in the common type `C`. -/
theorem elementwise_add_sub [Zero C] [Add C] [Sub C] (cT : T → C) (cU : U → C)
    (a : vector T N) (b : List U) (h : b.length = a.size) :
    (∃ r, a.operator_plus cT cU b = .ok r ∧ r.size = a.size ∧
      r.elems = List.zipWith (fun x y => cT x + cU y) a.elems b ∧
      ∀ (i : Nat) (x : T) (y : U), a.subscript i = .ok x → subscript b i = .ok y →
        r.subscript i = .ok (cT x + cU y)) ∧
    (∃ r, a.operator_minus cT cU b = .ok r ∧ r.size = a.size ∧
      r.elems = List.zipWith (fun x y => cT x - cU y) a.elems b ∧
      ∀ (i : Nat) (x : T) (y : U), a.subscript i = .ok x → subscript b i = .ok y →
        r.subscript i = .ok (cT x - cU y)) :=
  operator_plus_minus_of_length_eq cT cU a b h

/-- The instances of C5 checked by the tests: `(1,2,3) + (4,5,6) = (5,7,9)` and
`(1,2,3) - (4,5,6) = (-3,-3,-3)`. -/
theorem elementwise_add_sub_witness :
    ([4, 5, 6] : List Int).length = (fixed3 1 2 3).size ∧
    (∃ r, (fixed3 1 2 3).operator_plus id id [4, 5, 6] = .ok r ∧ r.elems = [5, 7, 9]) ∧
    (∃ r, (fixed3 1 2 3).operator_minus id id [4, 5, 6] = .ok r ∧ r.elems = [-3, -3, -3]) := by
  have key := elementwise_add_sub id id (fixed3 1 2 3) ([4, 5, 6] : List Int) rfl
  obtain ⟨⟨r1, h1, -, e1, -⟩, ⟨r2, h2, -, e2, -⟩⟩ := key
  exact ⟨rfl, ⟨r1, h1, e1⟩, ⟨r2, h2, e2⟩⟩

/-- C6. Elementwise `a + b` and `a - b` throw their length-mismatch
(invalid-argument) error exactly when the lengths of the operands differ, and
return a container otherwise; a length-1 operand is no exception. -/
theorem elementwise_add_sub_length_mismatch [Zero C] [Add C] [Sub C]
    (cT : T → C) (cU : U → C) (a : vector T N) (b : List U) :
    (a.operator_plus cT cU b
        = .error (.invalid_argument
            "\nERR: elementwise addition requires vectors of equal length\n")
      ↔ b.length ≠ a.size) ∧
    ((∃ r, a.operator_plus cT cU b = .ok r) ↔ b.length = a.size) ∧
    (a.operator_minus cT cU b
        = .error (.invalid_argument
            "\nERR: elementwise subtraction requires vectors of equal length\n")
      ↔ b.length ≠ a.size) ∧
    ((∃ r, a.operator_minus cT cU b = .ok r) ↔ b.length = a.size) := by
  by_cases h : b.length = a.size
  · obtain ⟨⟨r1, h1, -⟩, ⟨r2, h2, -⟩⟩ := operator_plus_minus_of_length_eq cT cU a b h
    rw [h1, h2]
    exact ⟨⟨fun e => (by cases e), fun hne => absurd h hne⟩, ⟨fun _ => h, fun _ => ⟨_, rfl⟩⟩,
      ⟨fun e => (by cases e), fun hne => absurd h hne⟩, ⟨fun _ => h, fun _ => ⟨_, rfl⟩⟩⟩
  · have h1 : a.operator_plus cT cU b
        = .error (.invalid_argument
            "\nERR: elementwise addition requires vectors of equal length\n") := by
      simp only [vector.operator_plus, ne_eq, h, not_false_eq_true, if_true]
    have h2 : a.operator_minus cT cU b
        = .error (.invalid_argument
            "\nERR: elementwise subtraction requires vectors of equal length\n") := by
      simp only [vector.operator_minus, ne_eq, h, not_false_eq_true, if_true]
    rw [h1, h2]
    refine ⟨⟨fun _ => h, fun _ => rfl⟩, ⟨?_, fun e => absurd e h⟩,
      ⟨fun _ => h, fun _ => rfl⟩, ⟨?_, fun e => absurd e h⟩⟩
    · rintro ⟨c, hc⟩
      cases hc
    · rintro ⟨c, hc⟩
      cases hc

/-- The instances of C6: length 3 against length 4, as in the tests, and a
length-1 operand against length 3. -/
theorem elementwise_add_sub_length_mismatch_witness :
    (fixed3 1 2 3).operator_plus id id [4, 5, 6, 7]
      = .error (.invalid_argument
          "\nERR: elementwise addition requires vectors of equal length\n") ∧
    (dynamic [1]).operator_minus id id [4, 5, 6]
      = .error (.invalid_argument
          "\nERR: elementwise subtraction requires vectors of equal length\n") :=
  ⟨(elementwise_add_sub_length_mismatch id id (fixed3 1 2 3) [4, 5, 6, 7]).1.mpr (by decide),
   (elementwise_add_sub_length_mismatch id id (dynamic [1]) [4, 5, 6]).2.2.1.mpr (by decide)⟩

/-- C7. For operands of equal length, `a * b` returns a container of that length
whose element at every index `i` is `a[i] * b[i]`. -/
theorem elementwise_mul [Zero C] [Mul C] (cT : T → C) (cU : U → C)
    (a : vector T N) (b : List U) (h : b.length = a.size) :
    ∃ r, a.operator_star cT cU b = .ok r ∧ r.size = a.size ∧
      r.elems = List.zipWith (fun x y => cT x * cU y) a.elems b ∧
      ∀ (i : Nat) (x : T) (y : U), a.subscript i = .ok x → subscript b i = .ok y →
        r.subscript i = .ok (cT x * cU y) := by
  unfold vector.operator_star
  rw [if_neg (fun hg => hg.1 h)]
  exact elementwise_spec (fun x y => cT x * cU y) _ a b h
    (fun res i x y hx hy => by simp only [hx, hy, bind, Except.bind])

/-- The instance of C7 checked by the tests: `(1,2,3) * (4,5,6) = (4,10,18)`. -/
theorem elementwise_mul_witness :
    ([4, 5, 6] : List Int).length = (fixed3 1 2 3).size ∧
    ∃ r, (fixed3 1 2 3).operator_star id id [4, 5, 6] = .ok r ∧ r.size = 3 ∧
      r.elems = [4, 10, 18] := by
  obtain ⟨r, hr, hs, he, -⟩ := elementwise_mul id id (fixed3 1 2 3) ([4, 5, 6] : List Int) rfl
  exact ⟨rfl, r, hr, hs, he⟩

/-- C8. For `int` operands of equal length with every `b[i]` non-zero, `a / b`
returns a container of that length whose element at every index `i` is the
quotient of `a[i]` by `b[i]` truncated toward zero. -/
theorem elementwise_div_int (a : vector Int N) (b : List Int) (h : b.length = a.size)
    (hnz : ∀ y ∈ b, y ≠ 0) :
    ∃ r, a.operator_slash int_quot id id b = .ok r ∧ r.size = a.size ∧
      r.elems = List.zipWith Int.tdiv a.elems b ∧
      ∀ (i : Nat) (x y : Int), a.subscript i = .ok x → subscript b i = .ok y →
        r.subscript i = .ok (Int.tdiv x y) := by
  unfold vector.operator_slash
  rw [if_neg (fun hg => hg.1 h)]
  refine elementwise_spec Int.tdiv _ a b h (fun res i x y hx hy => ?_)
  have hy0 : y ≠ 0 :=
    hnz y (List.getElem?_mem ((subscript_ok_iff b i y).mp hy))
  simp only [hx, hy, bind, Except.bind, int_quot, id, hy0, if_false]

/-- The instance of C8 checked by the tests: `(4,5,6) / (1,2,3) = (4,2,2)`. -/
theorem elementwise_div_int_witness :
    ([1, 2, 3] : List Int).length = (fixed3 4 5 6).size ∧
    (∀ y ∈ ([1, 2, 3] : List Int), y ≠ 0) ∧
    ∃ r, (fixed3 4 5 6).operator_slash int_quot id id [1, 2, 3] = .ok r ∧ r.size = 3 ∧
      r.elems = [4, 2, 2] := by
  have hnz : ∀ y ∈ ([1, 2, 3] : List Int), y ≠ 0 := by decide
  obtain ⟨r, hr, hs, he, -⟩ := elementwise_div_int (fixed3 4 5 6) [1, 2, 3] rfl hnz
  exact ⟨rfl, hnz, r, hr, hs, he⟩

/-- C9. With a right operand of length 1 the multiplication passes the length
guard but its loop reads `other[i]` at every index of the left operand:
`(1,2,3) * (2)` reads past the end of the right operand, for a fixed-length and
for a dynamic left operand, instead of returning `(2,4,6)`. -/
theorem broadcast_right_reads_past_end :
    (fixed3 1 2 3).operator_star id id [2] = .error .out_of_bounds ∧
    (dynamic [1, 2, 3]).operator_star id id [2] = .error .out_of_bounds :=
  ⟨rfl, rfl⟩

/-- C10. With a dynamic left operand of length 1 the multiplication passes the
length guard but sizes its result by the left operand: `(2) * (1,2,3)` is the
one-element container `(2)`, not `(2,4,6)`. -/
theorem broadcast_left_keeps_length_one :
    ∃ r, (dynamic [2]).operator_star id id [1, 2, 3] = .ok r ∧
      r.elems = [2] ∧ r.size = 1 :=
  ⟨dynamic [2], rfl, rfl, rfl⟩

end elementwise_claims

/-! ## Failure of the elementwise product and quotient, and the scalar operators -/

section scalar_claims

variable {T U C : Type} {N : Nat}

theorem subscript_not_thrown (xs : List T) (i : Nat) (msg : String) :
    subscript xs i ≠ .error (.invalid_argument msg) := by
  unfold subscript
  cases xs[i]? <;> simp

theorem store_not_thrown (v : vector T N) (i : Nat) (x : T) (msg : String) :
    v.store i x ≠ .error (.invalid_argument msg) := by
  unfold vector.store
  split <;> simp

/-- A loop whose body never throws never throws. -/
theorem foldlM_not_thrown {σ : Type} (body : σ → Nat → Except Error σ)
    (h : ∀ s i msg, body s i ≠ .error (.invalid_argument msg)) :
    ∀ (l : List Nat) (s : σ) (msg : String),
      l.foldlM body s ≠ .error (.invalid_argument msg) := by
  intro l
  induction l with
  | nil => intro s msg; simp [pure, Except.pure]
  | cons i l ih =>
    intro s msg
    rw [List.foldlM_cons]
    cases hb : body s i with
    | error e =>
      intro hc
      have : e = .invalid_argument msg := by
        simpa [bind, Except.bind] using hc
      exact h s i msg (by rw [hb, this])
    | ok s1 => exact ih s1 msg

/-- Once its guard is passed, an elementwise operator throws nothing. -/
theorem elementwise_body_not_thrown [Zero C] (f : T → U → Except Error C)
    (hf : ∀ x y msg, f x y ≠ .error (.invalid_argument msg))
    (a : vector T N) (b : List U) (msg : String) :
    (vector.fill_ctor id a.size (0 : C) 'c' >>= fun result =>
      (List.range a.size).foldlM (fun (result : vector C N) i => do
        let x ← a.subscript i
        let y ← ccomms.subscript b i
        result.store i (← f x y)) result) ≠ .error (.invalid_argument msg) := by
  obtain ⟨r0, hfill, -⟩ := fill_ctor_size (C := C) a
  rw [hfill]
  refine foldlM_not_thrown _ (fun s i m => ?_) _ r0 msg
  cases hx : a.subscript i with
  | error e =>
    intro hc
    have : e = .invalid_argument m := by simpa [bind, Except.bind] using hc
    exact subscript_not_thrown a.elems i m (by rw [← this]; exact hx)
  | ok x =>
    cases hy : subscript b i with
    | error e =>
      intro hc
      have : e = .invalid_argument m := by simpa [bind, Except.bind] using hc
      exact subscript_not_thrown b i m (by rw [← this]; exact hy)
    | ok y =>
      cases hq : f x y with
      | error e =>
        intro hc
        have : e = .invalid_argument m := by simpa [bind, Except.bind, hq] using hc
        exact hf x y m (by rw [← this]; exact hq)
      | ok q =>
        intro hc
        exact store_not_thrown s i q m (by simpa [bind, Except.bind, hq] using hc)

theorem int_quot_not_thrown (x y : Int) (msg : String) :
    int_quot x y ≠ .error (.invalid_argument msg) := by
  unfold int_quot
  split <;> simp

/-- C11. Elementwise `a * b` and `a / b` throw an invalid-argument error exactly
when the lengths of the operands differ and neither is 1; the error is then the
length-mismatch error of the operator.  The built-in division `quot` throws
nothing itself. -/
theorem elementwise_mul_div_length_mismatch [Zero C] [Mul C]
    (quot : C → C → Except Error C)
    (hquot : ∀ x y msg, quot x y ≠ .error (.invalid_argument msg))
    (cT : T → C) (cU : U → C) (a : vector T N) (b : List U) :
    ((∃ msg, a.operator_star cT cU b = .error (.invalid_argument msg))
      ↔ (b.length ≠ a.size ∧ b.length ≠ 1 ∧ a.size ≠ 1)) ∧
    (a.operator_star cT cU b
        = .error (.invalid_argument
            "\nERR: elementwise multiplication requires vectors of equal length\n")
      ↔ (b.length ≠ a.size ∧ b.length ≠ 1 ∧ a.size ≠ 1)) ∧
    ((∃ msg, a.operator_slash quot cT cU b = .error (.invalid_argument msg))
      ↔ (b.length ≠ a.size ∧ b.length ≠ 1 ∧ a.size ≠ 1)) ∧
    (a.operator_slash quot cT cU b
        = .error (.invalid_argument
            "\nERR: elementwise division requires vectors of equal length\n")
      ↔ (b.length ≠ a.size ∧ b.length ≠ 1 ∧ a.size ≠ 1)) := by
  by_cases hg : b.length ≠ a.size ∧ b.length ≠ 1 ∧ a.size ≠ 1
  · have h1 : a.operator_star cT cU b = .error (.invalid_argument
        "\nERR: elementwise multiplication requires vectors of equal length\n") := by
      unfold vector.operator_star
      rw [if_pos hg]
    have h2 : a.operator_slash quot cT cU b = .error (.invalid_argument
        "\nERR: elementwise division requires vectors of equal length\n") := by
      unfold vector.operator_slash
      rw [if_pos hg]
    rw [h1, h2]
    exact ⟨⟨fun _ => hg, fun _ => ⟨_, rfl⟩⟩, ⟨fun _ => hg, fun _ => rfl⟩,
      ⟨fun _ => hg, fun _ => ⟨_, rfl⟩⟩, ⟨fun _ => hg, fun _ => rfl⟩⟩
  · have h1 : ∀ msg, a.operator_star cT cU b ≠ .error (.invalid_argument msg) := by
      intro msg
      unfold vector.operator_star
      rw [if_neg hg]
      exact elementwise_body_not_thrown (fun x y => .ok (cT x * cU y))
        (fun _ _ _ => by simp) a b msg
    have h2 : ∀ msg, a.operator_slash quot cT cU b ≠ .error (.invalid_argument msg) := by
      intro msg
      unfold vector.operator_slash
      rw [if_neg hg]
      exact elementwise_body_not_thrown (fun x y => quot (cT x) (cU y))
        (fun x y m => hquot (cT x) (cU y) m) a b msg
    refine ⟨⟨?_, fun h => absurd h hg⟩, ⟨fun h => absurd h (h1 _), fun h => absurd h hg⟩,
      ⟨?_, fun h => absurd h hg⟩, ⟨fun h => absurd h (h2 _), fun h => absurd h hg⟩⟩
    · rintro ⟨msg, hm⟩
      exact absurd hm (h1 msg)
    · rintro ⟨msg, hm⟩
      exact absurd hm (h2 msg)

/-- The instances of C11: length 3 against length 4 is rejected by both
operators. -/
theorem elementwise_mul_div_length_mismatch_witness :
    (∀ x y msg, int_quot x y ≠ .error (.invalid_argument msg)) ∧
    (fixed3 1 2 3).operator_star id id [4, 5, 6, 7]
      = .error (.invalid_argument
          "\nERR: elementwise multiplication requires vectors of equal length\n") ∧
    (fixed3 1 2 3).operator_slash int_quot id id [4, 5, 6, 7]
      = .error (.invalid_argument
          "\nERR: elementwise division requires vectors of equal length\n") :=
  ⟨int_quot_not_thrown,
   (elementwise_mul_div_length_mismatch int_quot int_quot_not_thrown id id (fixed3 1 2 3)
      [4, 5, 6, 7]).2.1.mpr (by decide),
   (elementwise_mul_div_length_mismatch int_quot int_quot_not_thrown id id (fixed3 1 2 3)
      [4, 5, 6, 7]).2.2.2.mpr (by decide)⟩

/-- The result container of a scalar operator: what `vector(const char &)` builds
from the size of the operand. -/
theorem default_ctor_elems [Zero C] (c : Char) :
    (vector.default_ctor c : vector C N).elems = List.replicate N 0 :=
  rfl

/-- The loop of a scalar operator on a fixed-length operand. -/
theorem scalar_loop_fixed [Zero C] (g : T → C)
    (body : vector C N → Nat → Except Error (vector C N))
    (a : vector T N) (hN : N ≠ 0)
    (hbody : ∀ (res : vector C N) (i : Nat) (x : T),
      a.subscript i = .ok x → body res i = res.store i (g x)) :
    ∃ r, (List.range a.size).foldlM body (vector.default_ctor (char_of_size a.size)) = .ok r ∧
      r.size = a.size ∧ r.elems = a.elems.map g := by
  have hsz : a.size = N := a.fixed_len hN
  have hlen : (a.elems.map g).length = a.size := List.length_map _ _
  obtain ⟨r, hfold, helems, -, -⟩ :=
    store_loop (a.elems.map g) body
      (fun res i hi _ => by
        rw [hlen] at hi
        have hia : i < a.elems.length := hi
        rw [hbody res i a.elems[i] (a.read_of_lt i hia), List.getElem_map])
      (vector.default_ctor (char_of_size a.size))
      (by rw [hlen, hsz]; simp [vector.size, default_ctor_elems])
      a.size (by rw [hlen])
  refine ⟨r, hfold, ?_, ?_⟩
  · simp only [vector.size, helems, List.length_append, List.length_take, List.length_map,
      List.length_drop, default_ctor_elems, List.length_replicate]
    have : a.elems.length = N := hsz
    omega
  · rw [helems, List.take_of_length_le (by rw [hlen]), List.drop_of_length_le, List.append_nil]
    rw [default_ctor_elems, List.length_replicate, hsz]

/-- The scalar operators on a fixed-length operand: every element is combined
with the scalar. -/
theorem scalar_ops_fixed [Zero C] [Add C] [Sub C] [Mul C] (cT : T → C) (cU : U → C)
    (a : vector T N) (hN : N ≠ 0) (s : U) :
    (∃ r, a.operator_plus_scalar cT cU s = .ok r ∧ r.size = a.size ∧
      r.elems = a.elems.map (fun x => cT x + cU s)) ∧
    (∃ r, a.operator_minus_scalar cT cU s = .ok r ∧ r.size = a.size ∧
      r.elems = a.elems.map (fun x => cT x - cU s)) ∧
    (∃ r, a.operator_star_scalar cT cU s = .ok r ∧ r.size = a.size ∧
      r.elems = a.elems.map (fun x => cT x * cU s)) :=
  ⟨scalar_loop_fixed (fun x => cT x + cU s) _ a hN
      (fun res i x hx => by simp only [hx, bind, Except.bind]),
   scalar_loop_fixed (fun x => cT x - cU s) _ a hN
      (fun res i x hx => by simp only [hx, bind, Except.bind]),
   scalar_loop_fixed (fun x => cT x * cU s) _ a hN
      (fun res i x hx => by simp only [hx, bind, Except.bind])⟩

/-- The scalar quotient of a fixed-length `int` operand by a non-zero scalar. -/
theorem scalar_div_fixed (a : vector Int N) (hN : N ≠ 0) (s : Int) (hs : s ≠ 0) :
    ∃ r, a.operator_slash_scalar int_quot id id s = .ok r ∧ r.size = a.size ∧
      r.elems = a.elems.map (fun x => Int.tdiv x s) :=
  scalar_loop_fixed (fun x => Int.tdiv x s) _ a hN
    (fun res i x hx => by simp only [hx, bind, Except.bind, int_quot, id, hs, if_false])

/-- The loop of a scalar operator on a non-empty dynamic operand: the result
container is empty and the first store is past its end. -/
theorem scalar_loop_dynamic [Zero C] (body : vector C 0 → Nat → Except Error (vector C 0))
    (a : vector T 0) (hpos : 0 < a.size)
    (hbody : ∀ (res : vector C 0) (i : Nat) (x : T),
      a.subscript i = .ok x → ∃ v, body res i = res.store i v) :
    (List.range a.size).foldlM body (vector.default_ctor (char_of_size a.size))
      = .error .out_of_bounds := by
  obtain ⟨n, hn⟩ : ∃ n, a.size = n + 1 := ⟨a.size - 1, by omega⟩
  have h0 : 0 < a.elems.length := hpos
  obtain ⟨v, hv⟩ := hbody (vector.default_ctor (char_of_size a.size)) 0 a.elems[0]
    (a.read_of_lt 0 h0)
  have hrange : List.range a.size = 0 :: (List.range n).map Nat.succ := by
    rw [hn, List.range_succ_eq_map]
  rw [hrange, List.foldlM_cons, hv]
  simp [vector.store, default_ctor_elems, bind, Except.bind]

/-- C12. On a dynamic operand the scalar operators build their result with
`vector(const char &)`, which is empty, and write `result[0]` past its end:
`vector<int>{1,2,3}` combined with `2` by `+`, `-`, `*`, `/` does not return
`(3,4,5)`, `(-1,0,1)`, `(2,4,6)`, `(0,1,1)`. -/
theorem scalar_ops_dynamic_write_past_end :
    (vector.default_ctor (char_of_size 3) : vector Int 0).size = 0 ∧
    (dynamic [1, 2, 3]).operator_plus_scalar id id (2 : Int) = .error .out_of_bounds ∧
    (dynamic [1, 2, 3]).operator_minus_scalar id id (2 : Int) = .error .out_of_bounds ∧
    (dynamic [1, 2, 3]).operator_star_scalar id id (2 : Int) = .error .out_of_bounds ∧
    (dynamic [1, 2, 3]).operator_slash_scalar int_quot id id (2 : Int)
      = .error .out_of_bounds :=
  ⟨rfl, rfl, rfl, rfl, rfl⟩

/-- The scalar operators on the fixed-length operand of the tests:
`(1,2,3) * 2 = (2,4,6)` and `(1,2,3) / 2 = (0,1,1)`. -/
theorem scalar_ops_fixed3 :
    (∃ r, (fixed3 1 2 3).operator_star_scalar id id (2 : Int) = .ok r ∧ r.elems = [2, 4, 6]) ∧
    (∃ r, (fixed3 1 2 3).operator_slash_scalar int_quot id id (2 : Int) = .ok r ∧
      r.elems = [0, 1, 1]) := by
  obtain ⟨-, -, r1, h1, -, e1⟩ := scalar_ops_fixed (C := Int) id id (fixed3 1 2 3) (by decide) (2 : Int)
  obtain ⟨r2, h2, -, e2⟩ := scalar_div_fixed (fixed3 1 2 3) (by decide) 2 (by decide)
  exact ⟨⟨r1, h1, e1⟩, ⟨r2, h2, e2⟩⟩

/-- Every scalar operator fails in this way on every non-empty dynamic operand. -/
theorem scalar_ops_dynamic [Zero C] [Add C] [Sub C] [Mul C] (cT : T → C) (cU : U → C)
    (a : vector T 0) (hpos : 0 < a.size) (s : U) :
    a.operator_plus_scalar cT cU s = .error .out_of_bounds ∧
    a.operator_minus_scalar cT cU s = .error .out_of_bounds ∧
    a.operator_star_scalar cT cU s = .error .out_of_bounds :=
  ⟨scalar_loop_dynamic _ a hpos (fun res i x hx => ⟨cT x + cU s, by
      simp only [hx, bind, Except.bind]⟩),
   scalar_loop_dynamic _ a hpos (fun res i x hx => ⟨cT x - cU s, by
      simp only [hx, bind, Except.bind]⟩),
   scalar_loop_dynamic _ a hpos (fun res i x hx => ⟨cT x * cU s, by
      simp only [hx, bind, Except.bind]⟩)⟩

end scalar_claims

/-! ## The coordinate classes -/

section geodetic_claims

variable {T U : Type}

theorem check_range_ok_iff [LinearOrderedRing U] (lat lon : U) :
    geodetic.check_range lat lon = .ok () ↔ geodetic.in_range lat lon := by
  unfold geodetic.check_range geodetic.in_range
  by_cases h1 : lat > 90 ∨ lat < -90
  · rw [if_pos h1]
    constructor
    · intro h; cases h
    · rintro ⟨h2, h3, -⟩
      rcases h1 with h | h
      · exact absurd h3 (not_le.mpr h)
      · exact absurd h2 (not_le.mpr h)
  · rw [if_neg h1]
    rw [not_or, not_lt, not_lt] at h1
    by_cases h2 : lon > 180 ∨ lon < -180
    · rw [if_pos h2]
      constructor
      · intro h; cases h
      · rintro ⟨-, -, h3, h4⟩
        rcases h2 with h | h
        · exact absurd h4 (not_le.mpr h)
        · exact absurd h3 (not_le.mpr h)
    · rw [if_neg h2]
      rw [not_or, not_lt, not_lt] at h2
      exact ⟨fun _ => ⟨h1.2, h1.1, h2.2, h2.1⟩, fun _ => rfl⟩

theorem check_range_lat [LinearOrderedRing U] (lat lon : U) (h : lat > 90 ∨ lat < -90) :
    geodetic.check_range lat lon
      = .error (.invalid_argument "ERR: geodetic lat must be between -90 and 90") := by
  unfold geodetic.check_range
  rw [if_pos h]

theorem check_range_lon [LinearOrderedRing U] (lat lon : U) (h1 : ¬ (lat > 90 ∨ lat < -90))
    (h2 : lon > 180 ∨ lon < -180) :
    geodetic.check_range lat lon
      = .error (.invalid_argument "ERR: geodetic lon must be between -180 and 180") := by
  unfold geodetic.check_range
  rw [if_neg h1, if_pos h2]

/-- The outcome of the range checks: passed, or one of the two errors. -/
theorem check_range_cases [LinearOrderedRing U] (lat lon : U) :
    (geodetic.check_range lat lon = .ok () ∧ geodetic.in_range lat lon) ∨
    (geodetic.check_range lat lon
        = .error (.invalid_argument "ERR: geodetic lat must be between -90 and 90") ∧
      (lat > 90 ∨ lat < -90)) ∨
    (geodetic.check_range lat lon
        = .error (.invalid_argument "ERR: geodetic lon must be between -180 and 180") ∧
      ¬ (lat > 90 ∨ lat < -90) ∧ (lon > 180 ∨ lon < -180)) := by
  by_cases h1 : lat > 90 ∨ lat < -90
  · exact Or.inr (Or.inl ⟨check_range_lat lat lon h1, h1⟩)
  · by_cases h2 : lon > 180 ∨ lon < -180
    · exact Or.inr (Or.inr ⟨check_range_lon lat lon h1 h2, h1, h2⟩)
    · left
      have : geodetic.check_range lat lon = .ok () := by
        unfold geodetic.check_range
        rw [if_neg h1, if_neg h2]
      exact ⟨this, (check_range_ok_iff lat lon).mp this⟩

/-- The two-value constructor: its base and fields, and then the range checks. -/
theorem geodetic_values_ctor_eq [LinearOrderedRing U] (conv : U → T) (lat lon : U) :
    ∃ g : geodetic T, g.base.elems = [conv lat, conv lon] ∧ g.lat = conv lat ∧
      g.lon = conv lon ∧ g.base.is_row = false ∧ g.base.is_col = true ∧
      geodetic.values_ctor conv lat lon
        = (geodetic.check_range lat lon >>= fun _ => .ok g) := by
  refine ⟨⟨⟨[conv lat, conv lon], false, true, fun h => absurd rfl h⟩, conv lat, conv lon⟩,
    rfl, rfl, rfl, rfl, rfl, ?_⟩
  simp [geodetic.values_ctor, vector.list_ctor, geodetic.init_members, vector.subscript,
    subscript, bind, Except.bind, pure, Except.pure]

/-- C13. The constructor `geodetic(lat, lon)` throws an invalid-argument (range)
error exactly when `lat < -90`, `lat > 90`, `lon < -180` or `lon > 180`, and
returns an object exactly when both values are within the inclusive bounds; the
object then holds `lat` as element 0 and `lon` as element 1, converted to the
element type. -/
theorem geodetic_values_ctor_range [LinearOrderedRing U] (conv : U → T) (lat lon : U) :
    ((∃ msg, (geodetic.values_ctor conv lat lon : Except Error (geodetic T))
        = .error (.invalid_argument msg))
      ↔ (lat < -90 ∨ lat > 90 ∨ lon < -180 ∨ lon > 180)) ∧
    ((∃ g : geodetic T, geodetic.values_ctor conv lat lon = .ok g
        ∧ g.base.elems = [conv lat, conv lon])
      ↔ (-90 ≤ lat ∧ lat ≤ 90 ∧ -180 ≤ lon ∧ lon ≤ 180)) := by
  obtain ⟨g, helems, -, -, -, -, hctor⟩ := geodetic_values_ctor_eq (T := T) conv lat lon
  rw [hctor]
  rcases check_range_cases lat lon with ⟨hc, hr⟩ | ⟨hc, hr⟩ | ⟨hc, hr1, hr2⟩
  · rw [hc]
    obtain ⟨h1, h2, h3, h4⟩ := hr
    refine ⟨⟨?_, ?_⟩, ⟨fun _ => ⟨h1, h2, h3, h4⟩, fun _ => ⟨g, rfl, helems⟩⟩⟩
    · rintro ⟨msg, hm⟩
      cases hm
    · rintro (h | h | h | h)
      · exact absurd h1 (not_le.mpr h)
      · exact absurd h2 (not_le.mpr h)
      · exact absurd h3 (not_le.mpr h)
      · exact absurd h4 (not_le.mpr h)
  · rw [hc]
    refine ⟨⟨fun _ => ?_, fun _ => ⟨_, rfl⟩⟩, ⟨?_, ?_⟩⟩
    · rcases hr with h | h
      · exact Or.inr (Or.inl h)
      · exact Or.inl h
    · rintro ⟨g1, hg1, -⟩
      cases hg1
    · rintro ⟨h1, h2, -, -⟩
      rcases hr with h | h
      · exact absurd h2 (not_le.mpr h)
      · exact absurd h1 (not_le.mpr h)
  · rw [hc]
    refine ⟨⟨fun _ => ?_, fun _ => ⟨_, rfl⟩⟩, ⟨?_, ?_⟩⟩
    · rcases hr2 with h | h
      · exact Or.inr (Or.inr (Or.inr h))
      · exact Or.inr (Or.inr (Or.inl h))
    · rintro ⟨g1, hg1, -⟩
      cases hg1
    · rintro ⟨-, -, h3, h4⟩
      rcases hr2 with h | h
      · exact absurd h4 (not_le.mpr h)
      · exact absurd h3 (not_le.mpr h)

/-- The instances of C13: the corner values and the origin are accepted, a
latitude of 91 is rejected. -/
theorem geodetic_values_ctor_range_witness :
    (∃ g : geodetic Int, geodetic.values_ctor id (90 : Int) 180 = .ok g
      ∧ g.base.elems = [90, 180]) ∧
    (∃ g : geodetic Int, geodetic.values_ctor id (-90 : Int) (-180) = .ok g
      ∧ g.base.elems = [-90, -180]) ∧
    (∃ g : geodetic Int, geodetic.values_ctor id (0 : Int) 0 = .ok g
      ∧ g.base.elems = [0, 0]) ∧
    (∃ msg, (geodetic.values_ctor id (91 : Int) 0 : Except Error (geodetic Int))
      = .error (.invalid_argument msg)) :=
  ⟨(geodetic_values_ctor_range (T := Int) id (90 : Int) 180).2.mpr (by decide),
   (geodetic_values_ctor_range (T := Int) id (-90 : Int) (-180)).2.mpr (by decide),
   (geodetic_values_ctor_range (T := Int) id (0 : Int) 0).2.mpr (by decide),
   (geodetic_values_ctor_range (T := Int) id (91 : Int) 0).1.mpr (by decide)⟩

theorem geodetic_assign_move_eq [LinearOrderedRing U] (is_same : Bool) (conv : U → T)
    (g : geodetic T) (s0 s1 : U) :
    g.operator_assign_move is_same conv s0 s1 = g.operator_assign_copy is_same conv s0 s1 :=
  rfl

/-- A source that fails the range checks leaves the object as it was. -/
theorem geodetic_assign_error [LinearOrderedRing U] (is_same : Bool) (conv : U → T)
    (g : geodetic T) (s0 s1 : U) (e : Error) (h : geodetic.check_range s0 s1 = .error e) :
    g.operator_assign_copy is_same conv s0 s1 = (.error e, g) := by
  simp only [geodetic.operator_assign_copy, h]

/-- A source that passes the range checks replaces the two stored elements and
nothing else. -/
theorem geodetic_assign_ok [LinearOrderedRing U] (is_same : Bool) (conv : U → T)
    (g : geodetic T) (s0 s1 : U) (e0 e1 : T) (hg : g.base.elems = [e0, e1])
    (h : geodetic.check_range s0 s1 = .ok ()) :
    ∃ g1 : geodetic T, g.operator_assign_copy is_same conv s0 s1 = (.ok (), g1) ∧
      g1.base.elems = [conv s0, conv s1] ∧ g1.lat = g.lat ∧ g1.lon = g.lon ∧
      g1.base.is_row = g.base.is_row ∧ g1.base.is_col = g.base.is_col := by
  cases is_same with
  | true =>
    obtain ⟨t, ht, -, -, -, -, hctor⟩ := geodetic_values_ctor_eq (T := U) id s0 s1
    refine ⟨⟨⟨[conv s0, conv s1], g.base.is_row, g.base.is_col, fun h0 => absurd rfl h0⟩,
      g.lat, g.lon⟩, ?_, rfl, rfl, rfl, rfl, rfl⟩
    simp only [geodetic.operator_assign_copy, h, if_true, hctor, bind, Except.bind,
      geodetic.assign_base, vector.operator_assign_move, vector.init_move, ht]
    simp
  | false =>
    refine ⟨⟨⟨[conv s0, conv s1], g.base.is_row, g.base.is_col, fun h0 => absurd rfl h0⟩,
      g.lat, g.lon⟩, ?_, rfl, rfl, rfl, rfl, rfl⟩
    simp [geodetic.operator_assign_copy, h, and_then, geodetic.store, vector.store, hg]

/-- A copy-constructed object comes from a source of two elements that pass the
range checks after conversion. -/
theorem geodetic_copy_ctor_ok [LinearOrderedRing T] (conv : U → T) (vec : List U)
    (g : geodetic T) (h : geodetic.copy_ctor conv vec = .ok g) :
    ∃ a b, vec = [a, b] ∧ g.base.elems = [conv a, conv b] ∧ g.lat = conv a ∧
      g.lon = conv b ∧ geodetic.in_range (conv a) (conv b) := by
  rcases vec with _ | ⟨a, _ | ⟨b, _ | ⟨c, l⟩⟩⟩
  · simp [geodetic.copy_ctor, vector.copy_ctor, constructed, vector.init_copy,
      geodetic.init_members, vector.subscript, subscript, bind, Except.bind] at h
  · simp [geodetic.copy_ctor, vector.copy_ctor, constructed, vector.init_copy,
      geodetic.init_members, vector.subscript, subscript, bind, Except.bind] at h
  · rcases check_range_cases (conv a) (conv b) with ⟨hc, hr⟩ | ⟨hc, -⟩ | ⟨hc, -⟩
    · simp [geodetic.copy_ctor, vector.copy_ctor, constructed, vector.init_copy,
        geodetic.init_members, vector.subscript, subscript, bind, Except.bind, hc,
        pure, Except.pure] at h
      subst h
      exact ⟨a, b, rfl, rfl, rfl, rfl, hr⟩
    · simp [geodetic.copy_ctor, vector.copy_ctor, constructed, vector.init_copy,
        geodetic.init_members, vector.subscript, subscript, bind, Except.bind, hc,
        pure, Except.pure] at h
    · simp [geodetic.copy_ctor, vector.copy_ctor, constructed, vector.init_copy,
        geodetic.init_members, vector.subscript, subscript, bind, Except.bind, hc,
        pure, Except.pure] at h
  · simp [geodetic.copy_ctor, vector.copy_ctor, constructed, vector.init_copy,
      geodetic.init_members, vector.subscript, subscript, bind, Except.bind,
      throw, throwThe, MonadExceptOf.throw, pure, Except.pure] at h

/-- The same for a move-constructed object. -/
theorem geodetic_move_ctor_ok [LinearOrderedRing T] (conv : U → T) (vec : List U)
    (g : geodetic T) (h : geodetic.move_ctor conv vec = .ok g) :
    ∃ a b, vec = [a, b] ∧ g.base.elems = [conv a, conv b] ∧ g.lat = conv a ∧
      g.lon = conv b ∧ geodetic.in_range (conv a) (conv b) := by
  rcases vec with _ | ⟨a, _ | ⟨b, _ | ⟨c, l⟩⟩⟩
  · simp [geodetic.move_ctor, vector.move_ctor, constructed, vector.init_move,
      geodetic.init_members, vector.subscript, subscript, bind, Except.bind] at h
  · simp [geodetic.move_ctor, vector.move_ctor, constructed, vector.init_move,
      geodetic.init_members, vector.subscript, subscript, bind, Except.bind] at h
  · rcases check_range_cases (conv a) (conv b) with ⟨hc, hr⟩ | ⟨hc, -⟩ | ⟨hc, -⟩
    · simp [geodetic.move_ctor, vector.move_ctor, constructed, vector.init_move,
        geodetic.init_members, vector.subscript, subscript, bind, Except.bind, hc,
        pure, Except.pure, vector.size] at h
      subst h
      exact ⟨a, b, rfl, rfl, rfl, rfl, hr⟩
    · simp [geodetic.move_ctor, vector.move_ctor, constructed, vector.init_move,
        geodetic.init_members, vector.subscript, subscript, bind, Except.bind, hc,
        pure, Except.pure, vector.size] at h
    · simp [geodetic.move_ctor, vector.move_ctor, constructed, vector.init_move,
        geodetic.init_members, vector.subscript, subscript, bind, Except.bind, hc,
        pure, Except.pure, vector.size] at h
  · simp [geodetic.move_ctor, vector.move_ctor, constructed, vector.init_move,
      geodetic.init_members, vector.subscript, subscript, bind, Except.bind,
      throw, throwThe, MonadExceptOf.throw, pure, Except.pure, vector.size] at h

/-- The default constructors build their base with `vector(const char &)`, which
is empty, and their first member initialiser reads past its end. -/
theorem geodetic_default_ctor_error [Zero T] :
    (geodetic.default_ctor : Except Error (geodetic T)) = .error .out_of_bounds :=
  rfl

theorem geodetic.same_of_fields (g h : geodetic T) (hb : g.base = h.base) (h1 : g.lat = h.lat)
    (h2 : g.lon = h.lon) : g = h := by
  cases g; cases h; simp_all

/-- Assigning a source that holds, after conversion, the stored elements of the
object returns normally and changes nothing. -/
theorem geodetic_assign_same_values [LinearOrderedRing U] (is_same : Bool) (conv : U → T)
    (g : geodetic T) (s0 s1 : U) (hg : g.base.elems = [conv s0, conv s1])
    (hs : geodetic.in_range s0 s1) :
    g.operator_assign_copy is_same conv s0 s1 = (.ok (), g) := by
  obtain ⟨g1, hres, helems, hlat, hlon, hrow, hcol⟩ :=
    geodetic_assign_ok is_same conv g s0 s1 (conv s0) (conv s1) hg
      ((check_range_ok_iff s0 s1).mpr hs)
  rw [hres]
  have : g1 = g :=
    geodetic.same_of_fields g1 g
      (vector.eq_of_fields g1.base g.base (helems.trans hg.symm) hrow hcol) hlat hlon
  rw [this]

/-- C14. Range invariant: an object returned by the two-value, the copy or the
move constructor, and an object left by an assignment that returns normally on
an object satisfying the invariant, has exactly two stored elements within the
bounds and named fields within the bounds.  The conversion `conv` to the element
type is assumed to keep values within the bounds.  (The default constructor
never returns: its member initialisers read an empty base.) -/
theorem geodetic_range_invariant [LinearOrderedRing T] [LinearOrderedRing U] (conv : U → T)
    (hconv : ∀ lat lon : U, geodetic.in_range lat lon →
      geodetic.in_range (conv lat) (conv lon)) :
    (∀ g : geodetic T, geodetic.default_ctor = .ok g → g.range_invariant) ∧
    (∀ (lat lon : U) (g : geodetic T),
      geodetic.values_ctor conv lat lon = .ok g → g.range_invariant) ∧
    (∀ (vec : List U) (g : geodetic T),
      geodetic.copy_ctor conv vec = .ok g → g.range_invariant) ∧
    (∀ (vec : List U) (g : geodetic T),
      geodetic.move_ctor conv vec = .ok g → g.range_invariant) ∧
    (∀ (is_same : Bool) (g g1 : geodetic T) (s0 s1 : U), g.range_invariant →
      g.operator_assign_copy is_same conv s0 s1 = (.ok (), g1) → g1.range_invariant) ∧
    (∀ (is_same : Bool) (g g1 : geodetic T) (s0 s1 : U), g.range_invariant →
      g.operator_assign_move is_same conv s0 s1 = (.ok (), g1) → g1.range_invariant) := by
  have hassign : ∀ (is_same : Bool) (g g1 : geodetic T) (s0 s1 : U), g.range_invariant →
      g.operator_assign_copy is_same conv s0 s1 = (.ok (), g1) → g1.range_invariant := by
    intro is_same g g1 s0 s1 hinv hres
    obtain ⟨⟨e0, e1, hg, -⟩, hfields⟩ := hinv
    rcases check_range_cases s0 s1 with ⟨hc, hr⟩ | ⟨hc, -⟩ | ⟨hc, -⟩
    · obtain ⟨g2, hres2, helems, hlat, hlon, -, -⟩ :=
        geodetic_assign_ok is_same conv g s0 s1 e0 e1 hg hc
      rw [hres2] at hres
      have h21 : g2 = g1 := (Prod.mk.injEq _ _ _ _ ▸ hres).2
      subst h21
      exact ⟨⟨conv s0, conv s1, helems, hconv s0 s1 hr⟩, by rw [hlat, hlon]; exact hfields⟩
    · rw [geodetic_assign_error is_same conv g s0 s1 _ hc] at hres
      cases hres
    · rw [geodetic_assign_error is_same conv g s0 s1 _ hc] at hres
      cases hres
  refine ⟨?_, ?_, ?_, ?_, hassign, ?_⟩
  · intro g hg
    rw [geodetic_default_ctor_error] at hg
    cases hg
  · intro lat lon g hg
    obtain ⟨g0, helems, hlat, hlon, -, -, hctor⟩ := geodetic_values_ctor_eq (T := T) conv lat lon
    rw [hctor] at hg
    rcases check_range_cases lat lon with ⟨hc, hr⟩ | ⟨hc, -⟩ | ⟨hc, -⟩
    · rw [hc] at hg
      have h0 : g0 = g := by
        simpa [bind, Except.bind] using hg
      subst h0
      exact ⟨⟨conv lat, conv lon, helems, hconv lat lon hr⟩,
        by rw [hlat, hlon]; exact hconv lat lon hr⟩
    · rw [hc] at hg
      cases hg
    · rw [hc] at hg
      cases hg
  · intro vec g hg
    obtain ⟨a, b, -, helems, hlat, hlon, hr⟩ := geodetic_copy_ctor_ok conv vec g hg
    exact ⟨⟨conv a, conv b, helems, hr⟩, by rw [hlat, hlon]; exact hr⟩
  · intro vec g hg
    obtain ⟨a, b, -, helems, hlat, hlon, hr⟩ := geodetic_move_ctor_ok conv vec g hg
    exact ⟨⟨conv a, conv b, helems, hr⟩, by rw [hlat, hlon]; exact hr⟩
  · intro is_same g g1 s0 s1 hinv hres
    rw [geodetic_assign_move_eq] at hres
    exact hassign is_same g g1 s0 s1 hinv hres

/-- An instance of C14: `geodetic<int>(45, 90)` is constructed and satisfies the
invariant, and so does the object after the assignment of `(10, 20)`. -/
theorem geodetic_range_invariant_witness :
    (∀ lat lon : Int, geodetic.in_range lat lon → geodetic.in_range (id lat) (id lon)) ∧
    geodetic.values_ctor id (45 : Int) 90 = .ok (geo 45 90) ∧
    (geo 45 90).range_invariant ∧
    (geo 45 90).operator_assign_copy true id (10 : Int) 20
      = (.ok (), ⟨dynamic [10, 20], 45, 90⟩) ∧
    (⟨dynamic [10, 20], 45, 90⟩ : geodetic Int).range_invariant := by
  have key := geodetic_range_invariant (T := Int) (U := Int) id (fun _ _ h => h)
  have h1 : (geo 45 90).range_invariant := key.2.1 45 90 (geo 45 90) rfl
  exact ⟨fun _ _ h => h, rfl, h1, rfl,
    key.2.2.2.2.1 true (geo 45 90) ⟨dynamic [10, 20], 45, 90⟩ 10 20 h1 rfl⟩

/-- C15. Atomic failure: assigning, by copy or by move, a two-element source
whose first element is outside `[-90, 90]` or whose second is outside
`[-180, 180]` throws an invalid-argument (range) error and leaves the object,
its elements and its fields, as it was. -/
theorem geodetic_assign_atomic [LinearOrderedRing U] (is_same : Bool) (conv : U → T)
    (g : geodetic T) (s0 s1 : U) (h : s0 < -90 ∨ s0 > 90 ∨ s1 < -180 ∨ s1 > 180) :
    ∃ msg, g.operator_assign_copy is_same conv s0 s1 = (.error (.invalid_argument msg), g) ∧
      g.operator_assign_move is_same conv s0 s1 = (.error (.invalid_argument msg), g) := by
  rcases check_range_cases s0 s1 with ⟨-, h1, h2, h3, h4⟩ | ⟨hc, -⟩ | ⟨hc, -⟩
  · rcases h with h | h | h | h
    · exact absurd h1 (not_le.mpr h)
    · exact absurd h2 (not_le.mpr h)
    · exact absurd h3 (not_le.mpr h)
    · exact absurd h4 (not_le.mpr h)
  · exact ⟨_, geodetic_assign_error is_same conv g s0 s1 _ hc,
      (geodetic_assign_move_eq is_same conv g s0 s1).trans
        (geodetic_assign_error is_same conv g s0 s1 _ hc)⟩
  · exact ⟨_, geodetic_assign_error is_same conv g s0 s1 _ hc,
      (geodetic_assign_move_eq is_same conv g s0 s1).trans
        (geodetic_assign_error is_same conv g s0 s1 _ hc)⟩

/-- An instance of C15: assigning `(91, 0)` to `geodetic<int>(10, 20)`. -/
theorem geodetic_assign_atomic_witness :
    ((91 : Int) < -90 ∨ (91 : Int) > 90 ∨ (0 : Int) < -180 ∨ (0 : Int) > 180) ∧
    ∃ msg, (geo 10 20).operator_assign_copy true id (91 : Int) 0
        = (.error (.invalid_argument msg), geo 10 20) ∧
      (geo 10 20).operator_assign_move true id (91 : Int) 0
        = (.error (.invalid_argument msg), geo 10 20) :=
  ⟨by decide, geodetic_assign_atomic true id (geo 10 20) (91 : Int) 0 (by decide)⟩

/-- C17. Idempotence of validation: assigning to an object that satisfies the
range invariant a source holding its own two elements returns normally, by copy
and by move, and leaves the object unchanged. -/
theorem geodetic_assign_idempotent [LinearOrderedRing T] (g : geodetic T)
    (hinv : g.range_invariant) :
    ∃ e0 e1, g.base.elems = [e0, e1] ∧
      g.operator_assign_copy true id e0 e1 = (.ok (), g) ∧
      g.operator_assign_move true id e0 e1 = (.ok (), g) := by
  obtain ⟨⟨e0, e1, hg, hr⟩, -⟩ := hinv
  have h := geodetic_assign_same_values true id g e0 e1 hg hr
  exact ⟨e0, e1, hg, h, (geodetic_assign_move_eq true id g e0 e1).trans h⟩

/-- An instance of C17: re-assigning `(45, 90)` to `geodetic<int>(45, 90)`. -/
theorem geodetic_assign_idempotent_witness :
    (geo 45 90).range_invariant ∧
    ∃ e0 e1, (geo 45 90).base.elems = [e0, e1] ∧
      (geo 45 90).operator_assign_copy true id e0 e1 = (.ok (), geo 45 90) ∧
      (geo 45 90).operator_assign_move true id e0 e1 = (.ok (), geo 45 90) := by
  have hinv : (geo 45 90).range_invariant :=
    ⟨⟨45, 90, rfl, by decide⟩, by decide⟩
  exact ⟨hinv, geodetic_assign_idempotent (geo 45 90) hinv⟩

/-- C16, as the code has it. A range violation throws an invalid-argument error
whose message names the field and both of its bounds: a latitude above 90 or
below -90 gives the `lat` message, and with a valid latitude a longitude above
180 or below -180 gives the `lon` message, in the two-value constructor and in
both assignment operators; the two messages differ. -/
theorem geodetic_range_error_names_field [LinearOrderedRing U] (is_same : Bool)
    (conv : U → T) (g : geodetic T) (lat lon : U) :
    ((lat > 90 ∨ lat < -90) →
      (geodetic.values_ctor conv lat lon : Except Error (geodetic T))
        = .error (.invalid_argument "ERR: geodetic lat must be between -90 and 90") ∧
      g.operator_assign_copy is_same conv lat lon
        = (.error (.invalid_argument "ERR: geodetic lat must be between -90 and 90"), g) ∧
      g.operator_assign_move is_same conv lat lon
        = (.error (.invalid_argument "ERR: geodetic lat must be between -90 and 90"), g)) ∧
    ((-90 ≤ lat ∧ lat ≤ 90) → (lon > 180 ∨ lon < -180) →
      (geodetic.values_ctor conv lat lon : Except Error (geodetic T))
        = .error (.invalid_argument "ERR: geodetic lon must be between -180 and 180") ∧
      g.operator_assign_copy is_same conv lat lon
        = (.error (.invalid_argument "ERR: geodetic lon must be between -180 and 180"), g) ∧
      g.operator_assign_move is_same conv lat lon
        = (.error (.invalid_argument "ERR: geodetic lon must be between -180 and 180"), g)) ∧
    Error.invalid_argument "ERR: geodetic lat must be between -90 and 90"
      ≠ Error.invalid_argument "ERR: geodetic lon must be between -180 and 180" := by
  obtain ⟨g0, -, -, -, -, -, hctor⟩ := geodetic_values_ctor_eq (T := T) conv lat lon
  refine ⟨fun h => ?_, fun h1 h2 => ?_, by decide⟩
  · have hc := check_range_lat lat lon h
    refine ⟨by rw [hctor, hc]; rfl, geodetic_assign_error is_same conv g lat lon _ hc, ?_⟩
    exact (geodetic_assign_move_eq is_same conv g lat lon).trans
      (geodetic_assign_error is_same conv g lat lon _ hc)
  · have hlat : ¬ (lat > 90 ∨ lat < -90) := by
      rw [not_or, not_lt, not_lt]
      exact ⟨h1.2, h1.1⟩
    have hc := check_range_lon lat lon hlat h2
    refine ⟨by rw [hctor, hc]; rfl, geodetic_assign_error is_same conv g lat lon _ hc, ?_⟩
    exact (geodetic_assign_move_eq is_same conv g lat lon).trans
      (geodetic_assign_error is_same conv g lat lon _ hc)

/-- An instance of the amended C16: latitude 91, and longitude 181 with
latitude 0. -/
theorem geodetic_range_error_names_field_witness :
    ((91 : Int) > 90 ∨ (91 : Int) < -90) ∧
    (geodetic.values_ctor id (91 : Int) 0 : Except Error (geodetic Int))
      = .error (.invalid_argument "ERR: geodetic lat must be between -90 and 90") ∧
    ((-90 : Int) ≤ 0 ∧ (0 : Int) ≤ 90) ∧ ((181 : Int) > 180 ∨ (181 : Int) < -180) ∧
    (geodetic.values_ctor id (0 : Int) 181 : Except Error (geodetic Int))
      = .error (.invalid_argument "ERR: geodetic lon must be between -180 and 180") :=
  ⟨by decide,
   ((geodetic_range_error_names_field true id (geo 0 0) (91 : Int) 0).1 (by decide)).1,
   by decide, by decide,
   ((geodetic_range_error_names_field true id (geo 0 0) (0 : Int) 181).2.1
      (by decide) (by decide)).1⟩

/-- C16 as stated fails: the errors for a latitude above 90 and below -90 are the
same error, and so are those for a longitude above 180 and below -180, in the
constructor and in the assignment. -/
theorem geodetic_bound_not_identified :
    (∃ e, (geodetic.values_ctor id (91 : Int) 0 : Except Error (geodetic Int)) = .error e ∧
      (geodetic.values_ctor id (-91 : Int) 0 : Except Error (geodetic Int)) = .error e) ∧
    (∃ e, (geodetic.values_ctor id (0 : Int) 181 : Except Error (geodetic Int)) = .error e ∧
      (geodetic.values_ctor id (0 : Int) (-181) : Except Error (geodetic Int)) = .error e) ∧
    (∃ e, ((geo 0 0).operator_assign_copy true id (91 : Int) 0).1 = .error e ∧
      ((geo 0 0).operator_assign_copy true id (-91 : Int) 0).1 = .error e) ∧
    (∃ e, ((geo 0 0).operator_assign_copy true id (0 : Int) 181).1 = .error e ∧
      ((geo 0 0).operator_assign_copy true id (0 : Int) (-181)).1 = .error e) :=
  ⟨⟨_, rfl, rfl⟩, ⟨_, rfl, rfl⟩, ⟨_, rfl, rfl⟩, ⟨_, rfl, rfl⟩⟩

end geodetic_claims

/-! ## Length and named fields of the coordinate classes, and the list constructor -/

section coords_claims

variable {T U : Type} {N : Nat}

/-- The three-value constructor of `cartesian`: three elements, and fields equal
to them. -/
theorem cartesian_values_ctor_eq (conv : U → T) (x y z : U) :
    ∃ c : cartesian T, cartesian.values_ctor conv x y z = .ok c ∧
      c.base.elems = [conv x, conv y, conv z] ∧ c.x = conv x ∧ c.y = conv y ∧
      c.z = conv z ∧ c.base.is_row = false ∧ c.base.is_col = true := by
  refine ⟨⟨⟨[conv x, conv y, conv z], false, true, fun h => absurd rfl h⟩,
    conv x, conv y, conv z⟩, ?_, rfl, rfl, rfl, rfl, rfl, rfl⟩
  simp [cartesian.values_ctor, vector.list_ctor, cartesian.init_members, vector.subscript,
    subscript, bind, Except.bind, pure, Except.pure]

/-- A copy- or move-constructed `cartesian` comes from a source of three
elements, holds them and has fields equal to them. -/
theorem cartesian_copy_move_ctor_ok [Zero T] (conv : U → T) (vec : List U) (c : cartesian T)
    (h : cartesian.copy_ctor conv vec = .ok c ∨ cartesian.move_ctor conv vec = .ok c) :
    ∃ p q r, vec = [p, q, r] ∧ c.base.elems = [conv p, conv q, conv r] ∧
      c.x = conv p ∧ c.y = conv q ∧ c.z = conv r := by
  rcases vec with _ | ⟨p, _ | ⟨q, _ | ⟨r, _ | ⟨t, l⟩⟩⟩⟩
  · rcases h with h | h <;>
      simp [cartesian.copy_ctor, cartesian.move_ctor, vector.copy_ctor, vector.move_ctor,
        constructed, vector.init_copy, vector.init_move, cartesian.init_members,
        vector.subscript, subscript, bind, Except.bind] at h
  · rcases h with h | h <;>
      simp [cartesian.copy_ctor, cartesian.move_ctor, vector.copy_ctor, vector.move_ctor,
        constructed, vector.init_copy, vector.init_move, cartesian.init_members,
        vector.subscript, subscript, bind, Except.bind] at h
  · rcases h with h | h <;>
      simp [cartesian.copy_ctor, cartesian.move_ctor, vector.copy_ctor, vector.move_ctor,
        constructed, vector.init_copy, vector.init_move, cartesian.init_members,
        vector.subscript, subscript, bind, Except.bind] at h
  · rcases h with h | h <;>
    · simp [cartesian.copy_ctor, cartesian.move_ctor, vector.copy_ctor, vector.move_ctor,
        constructed, vector.init_copy, vector.init_move, cartesian.init_members,
        vector.subscript, subscript, bind, Except.bind, pure, Except.pure, vector.size] at h
      subst h
      exact ⟨p, q, r, rfl, rfl, rfl, rfl, rfl⟩
  · rcases h with h | h <;>
      simp [cartesian.copy_ctor, cartesian.move_ctor, vector.copy_ctor, vector.move_ctor,
        constructed, vector.init_copy, vector.init_move, cartesian.init_members,
        vector.subscript, subscript, bind, Except.bind, pure, Except.pure, vector.size,
        throw, throwThe, MonadExceptOf.throw] at h

/-- A copy- or move-constructed `spherical` comes from a source of two elements
and holds them. -/
theorem spherical_copy_move_ctor_ok [Zero T] (conv : U → T) (vec : List U) (c : spherical T)
    (h : spherical.copy_ctor conv vec = .ok c ∨ spherical.move_ctor conv vec = .ok c) :
    ∃ p q, vec = [p, q] ∧ c.base.elems = [conv p, conv q] ∧ c.az = conv p ∧ c.el = conv q := by
  rcases vec with _ | ⟨p, _ | ⟨q, _ | ⟨t, l⟩⟩⟩
  · rcases h with h | h <;>
      simp [spherical.copy_ctor, spherical.move_ctor, vector.copy_ctor, vector.move_ctor,
        constructed, vector.init_copy, vector.init_move, spherical.init_members,
        vector.subscript, subscript, bind, Except.bind] at h
  · rcases h with h | h <;>
      simp [spherical.copy_ctor, spherical.move_ctor, vector.copy_ctor, vector.move_ctor,
        constructed, vector.init_copy, vector.init_move, spherical.init_members,
        vector.subscript, subscript, bind, Except.bind] at h
  · rcases h with h | h <;>
    · simp [spherical.copy_ctor, spherical.move_ctor, vector.copy_ctor, vector.move_ctor,
        constructed, vector.init_copy, vector.init_move, spherical.init_members,
        vector.subscript, subscript, bind, Except.bind, pure, Except.pure, vector.size] at h
      subst h
      exact ⟨p, q, rfl, rfl, rfl, rfl⟩
  · rcases h with h | h <;>
      simp [spherical.copy_ctor, spherical.move_ctor, vector.copy_ctor, vector.move_ctor,
        constructed, vector.init_copy, vector.init_move, spherical.init_members,
        vector.subscript, subscript, bind, Except.bind, pure, Except.pure, vector.size,
        throw, throwThe, MonadExceptOf.throw] at h

/-- C18. The default constructors `cartesian()`, `spherical()`, `geodetic()`
pass their arity as an `int` to the base, where it selects
`vector(const char &)`: the base is empty, not of length 3 or 2, and the member
initialisers read `(*this)[0]` past its end, so no instance of the arity is
produced. -/
theorem coords_default_ctor_reads_empty_base [Zero T] :
    (vector.default_ctor (char_of_size 3) : vector T 0).size = 0 ∧
    (vector.default_ctor (char_of_size 2) : vector T 0).size = 0 ∧
    (cartesian.default_ctor : Except Error (cartesian T)) = .error .out_of_bounds ∧
    (spherical.default_ctor : Except Error (spherical T)) = .error .out_of_bounds ∧
    (geodetic.default_ctor : Except Error (geodetic T)) = .error .out_of_bounds :=
  ⟨rfl, rfl, rfl, rfl, rfl⟩

/-- The two-value constructor of `spherical`: two elements, and fields equal to
them. -/
theorem spherical_values_ctor_eq (conv : U → T) (az el : U) :
    ∃ c : spherical T, spherical.values_ctor conv az el = .ok c ∧
      c.base.elems = [conv az, conv el] ∧ c.az = conv az ∧ c.el = conv el := by
  refine ⟨⟨⟨[conv az, conv el], false, true, fun h => absurd rfl h⟩, conv az, conv el⟩,
    ?_, rfl, rfl, rfl⟩
  simp [spherical.values_ctor, vector.list_ctor, spherical.init_members, vector.subscript,
    subscript, bind, Except.bind, pure, Except.pure]

/-- The other constructors of the coordinate classes: an object they return has
the length of its arity. -/
theorem coords_ctor_size [LinearOrderedRing T] [LinearOrderedRing U] (conv : U → T) :
    (∀ (x y z : U) (c : cartesian T),
      cartesian.values_ctor conv x y z = .ok c → c.base.size = 3) ∧
    (∀ (vec : List U) (c : cartesian T),
      cartesian.copy_ctor conv vec = .ok c → vec.length = 3 ∧ c.base.size = 3) ∧
    (∀ (vec : List U) (c : cartesian T),
      cartesian.move_ctor conv vec = .ok c → vec.length = 3 ∧ c.base.size = 3) ∧
    (∀ (az el : U) (c : spherical T),
      spherical.values_ctor conv az el = .ok c → c.base.size = 2) ∧
    (∀ (vec : List U) (c : spherical T),
      spherical.copy_ctor conv vec = .ok c → vec.length = 2 ∧ c.base.size = 2) ∧
    (∀ (vec : List U) (c : spherical T),
      spherical.move_ctor conv vec = .ok c → vec.length = 2 ∧ c.base.size = 2) ∧
    (∀ (lat lon : U) (g : geodetic T),
      geodetic.values_ctor conv lat lon = .ok g → g.base.size = 2) ∧
    (∀ (vec : List U) (g : geodetic T),
      geodetic.copy_ctor conv vec = .ok g → vec.length = 2 ∧ g.base.size = 2) ∧
    (∀ (vec : List U) (g : geodetic T),
      geodetic.move_ctor conv vec = .ok g → vec.length = 2 ∧ g.base.size = 2) := by
  refine ⟨?_, ?_, ?_, ?_, ?_, ?_, ?_, ?_, ?_⟩
  · intro x y z c hc
    obtain ⟨c0, h0, helems, -⟩ := cartesian_values_ctor_eq (T := T) conv x y z
    rw [h0] at hc
    cases hc
    simp [vector.size, helems]
  · intro vec c hc
    obtain ⟨p, q, r, hv, helems, -⟩ := cartesian_copy_move_ctor_ok conv vec c (Or.inl hc)
    simp [vector.size, helems, hv]
  · intro vec c hc
    obtain ⟨p, q, r, hv, helems, -⟩ := cartesian_copy_move_ctor_ok conv vec c (Or.inr hc)
    simp [vector.size, helems, hv]
  · intro az el c hc
    obtain ⟨c0, h0, helems, -⟩ := spherical_values_ctor_eq (T := T) conv az el
    rw [h0] at hc
    cases hc
    simp [vector.size, helems]
  · intro vec c hc
    obtain ⟨p, q, hv, helems, -⟩ := spherical_copy_move_ctor_ok conv vec c (Or.inl hc)
    simp [vector.size, helems, hv]
  · intro vec c hc
    obtain ⟨p, q, hv, helems, -⟩ := spherical_copy_move_ctor_ok conv vec c (Or.inr hc)
    simp [vector.size, helems, hv]
  · intro lat lon g hg
    obtain ⟨g0, helems, -, -, -, -, hctor⟩ := geodetic_values_ctor_eq (T := T) conv lat lon
    rw [hctor] at hg
    cases hc : geodetic.check_range lat lon with
    | error e => rw [hc] at hg; cases hg
    | ok u =>
      rw [hc] at hg
      have h0 : g0 = g := by simpa [bind, Except.bind] using hg
      subst h0
      simp [vector.size, helems]
  · intro vec g hg
    obtain ⟨a, b, hv, helems, -⟩ := geodetic_copy_ctor_ok conv vec g hg
    simp [vector.size, helems, hv]
  · intro vec g hg
    obtain ⟨a, b, hv, helems, -⟩ := geodetic_move_ctor_ok conv vec g hg
    simp [vector.size, helems, hv]

/-- Neither assignment operator of `cartesian` nor an indexed write touches the
named fields. -/
theorem cartesian_fields_kept (is_same : Bool) (conv : U → T) (c : cartesian T)
    (other : List U) (i : Nat) (v : T) :
    ((c.operator_assign_copy is_same conv other).2.x = c.x ∧
      (c.operator_assign_copy is_same conv other).2.y = c.y ∧
      (c.operator_assign_copy is_same conv other).2.z = c.z) ∧
    ((c.operator_assign_move is_same conv other).2.x = c.x ∧
      (c.operator_assign_move is_same conv other).2.y = c.y ∧
      (c.operator_assign_move is_same conv other).2.z = c.z) ∧
    ((c.store i v).2.x = c.x ∧ (c.store i v).2.y = c.y ∧ (c.store i v).2.z = c.z) := by
  have hstore : ∀ (d : cartesian T) (j : Nat) (w : T),
      (d.store j w).2.x = d.x ∧ (d.store j w).2.y = d.y ∧ (d.store j w).2.z = d.z := by
    intro d j w
    unfold cartesian.store
    cases d.base.store j w <;> exact ⟨rfl, rfl, rfl⟩
  have hthen : ∀ (r : Except Error Unit × cartesian T) (j : Nat) (w : T),
      (and_then r (fun d => d.store j w)).2.x = r.2.x ∧
      (and_then r (fun d => d.store j w)).2.y = r.2.y ∧
      (and_then r (fun d => d.store j w)).2.z = r.2.z := by
    intro r j w
    unfold and_then
    cases r.1 with
    | error e => exact ⟨rfl, rfl, rfl⟩
    | ok u => exact hstore r.2 j w
  have hbase : ∀ (tmp : Except Error (cartesian U)),
      (c.assign_base conv tmp).2.x = c.x ∧ (c.assign_base conv tmp).2.y = c.y ∧
      (c.assign_base conv tmp).2.z = c.z := by
    intro tmp
    unfold cartesian.assign_base
    cases tmp <;> exact ⟨rfl, rfl, rfl⟩
  have hcopy : (c.operator_assign_copy is_same conv other).2.x = c.x ∧
      (c.operator_assign_copy is_same conv other).2.y = c.y ∧
      (c.operator_assign_copy is_same conv other).2.z = c.z := by
    unfold cartesian.operator_assign_copy
    split
    · exact ⟨rfl, rfl, rfl⟩
    · split
      · split
        · exact hbase _
        · obtain ⟨h1, h2, h3⟩ := hthen (and_then (c.store 0 (conv _)) (fun d => d.store 1 (conv _)))
            2 (conv _)
          obtain ⟨k1, k2, k3⟩ := hthen (c.store 0 (conv _)) 1 (conv _)
          obtain ⟨m1, m2, m3⟩ := hstore c 0 (conv _)
          exact ⟨h1.trans (k1.trans m1), h2.trans (k2.trans m2), h3.trans (k3.trans m3)⟩
      · exact ⟨rfl, rfl, rfl⟩
  have hmove : (c.operator_assign_move is_same conv other).2.x = c.x ∧
      (c.operator_assign_move is_same conv other).2.y = c.y ∧
      (c.operator_assign_move is_same conv other).2.z = c.z := by
    unfold cartesian.operator_assign_move
    split
    · exact ⟨rfl, rfl, rfl⟩
    · split
      · split
        · exact hbase _
        · obtain ⟨h1, h2, h3⟩ := hthen (and_then (c.store 0 (conv _)) (fun d => d.store 1 (conv _)))
            2 (conv _)
          obtain ⟨k1, k2, k3⟩ := hthen (c.store 0 (conv _)) 1 (conv _)
          obtain ⟨m1, m2, m3⟩ := hstore c 0 (conv _)
          exact ⟨h1.trans (k1.trans m1), h2.trans (k2.trans m2), h3.trans (k3.trans m3)⟩
      · exact ⟨rfl, rfl, rfl⟩
  exact ⟨hcopy, hmove, hstore c i v⟩

/-- C19. The named fields of `cartesian` are data members initialised from the
elements at construction, not references to them: after construction they agree
with the elements, but after `c = {4,5,6}` (by copy or by move) on
`cartesian<int> c(1,2,3)` the elements are `(4,5,6)` and the fields are still
`(1,2,3)`, and after `c[0] = 9` the field `x` is still `1`. -/
theorem cartesian_fields_are_snapshots :
    cartesian.values_ctor id (1 : Int) 2 3 = .ok (cart 1 2 3) ∧
    (∃ c, (cart 1 2 3).operator_assign_copy true id [4, 5, 6] = (.ok (), c) ∧
      c.base.elems = [4, 5, 6] ∧ c.x = 1 ∧ c.y = 2 ∧ c.z = 3) ∧
    (∃ c, (cart 1 2 3).operator_assign_move true id [4, 5, 6] = (.ok (), c) ∧
      c.base.elems = [4, 5, 6] ∧ c.x = 1 ∧ c.y = 2 ∧ c.z = 3) ∧
    (∃ c, (cart 1 2 3).operator_assign_copy false id [4, 5, 6] = (.ok (), c) ∧
      c.base.elems = [4, 5, 6] ∧ c.x = 1 ∧ c.y = 2 ∧ c.z = 3) ∧
    (∃ c, (cart 1 2 3).store 0 9 = (.ok (), c) ∧ c.base.elems = [9, 2, 3] ∧ c.x = 1) :=
  ⟨rfl, ⟨_, rfl, rfl, rfl, rfl, rfl⟩, ⟨_, rfl, rfl, rfl, rfl, rfl⟩,
    ⟨_, rfl, rfl, rfl, rfl, rfl⟩, ⟨_, rfl, rfl, rfl⟩⟩

/-- The list constructor: its outcome in both cases. -/
theorem list_ctor_cases (conv : U → T) (list : List U) (vectype : Char) :
    (N ≠ 0 ∧ list.length ≠ N ∧
      (vector.list_ctor conv list vectype : Except Error (vector T N))
        = .error (.invalid_argument
            "\nERR: fixed vector requires number of elements equal to its length")) ∨
    (¬ (N ≠ 0 ∧ list.length ≠ N) ∧
      ∃ r : vector T N, vector.list_ctor conv list vectype = .ok r ∧
        r.elems = list.map conv ∧ r.size = list.length ∧
        r.is_row = (vectype == 'r') ∧ r.is_col = (vectype == 'c')) := by
  by_cases h : N ≠ 0 ∧ list.length ≠ N
  · left
    refine ⟨h.1, h.2, ?_⟩
    unfold vector.list_ctor
    rw [dif_pos h]
  · right
    refine ⟨h, ?_⟩
    unfold vector.list_ctor
    rw [dif_neg h]
    exact ⟨_, rfl, rfl, by simp [vector.size], rfl, rfl⟩

/-- C20. The list constructor of `vector<T, N>` throws its invalid-argument
(length-mismatch) error exactly when `N != 0` and the length of the list differs
from `N`; otherwise it returns a container that holds the values of the list in
order, converted to `T`, and has the length of the list. -/
theorem list_ctor_spec (conv : U → T) (list : List U) (vectype : Char) :
    ((vector.list_ctor conv list vectype : Except Error (vector T N))
        = .error (.invalid_argument
            "\nERR: fixed vector requires number of elements equal to its length")
      ↔ (N ≠ 0 ∧ list.length ≠ N)) ∧
    ((∃ r : vector T N, vector.list_ctor conv list vectype = .ok r ∧
        r.elems = list.map conv ∧ r.size = list.length)
      ↔ ¬ (N ≠ 0 ∧ list.length ≠ N)) := by
  rcases list_ctor_cases (T := T) (N := N) conv list vectype with
    ⟨h1, h2, he⟩ | ⟨h, r, hr, helems, hsize, -, -⟩
  · rw [he]
    refine ⟨⟨fun _ => ⟨h1, h2⟩, fun _ => rfl⟩, ⟨?_, fun hn => absurd ⟨h1, h2⟩ hn⟩⟩
    rintro ⟨r, hr, -⟩
    cases hr
  · rw [hr]
    refine ⟨⟨fun e => (by cases e), fun hn => absurd hn h⟩,
      ⟨fun _ => h, fun _ => ⟨r, rfl, helems, hsize⟩⟩⟩

/-- The instances of C20 checked by the tests: `vector<int,3>{7,8}` is rejected,
`vector<int>{1,2,3}` and `vector<int,3>{4,5,6}` hold their lists. -/
theorem list_ctor_spec_witness :
    (vector.list_ctor id [(7 : Int), 8] 'c' : Except Error (vector Int 3))
      = .error (.invalid_argument
          "\nERR: fixed vector requires number of elements equal to its length") ∧
    (∃ r : vector Int 0, vector.list_ctor id [(1 : Int), 2, 3] 'c' = .ok r ∧
      r.elems = [1, 2, 3].map id ∧ r.size = 3) ∧
    (∃ r : vector Int 3, vector.list_ctor id [(4 : Int), 5, 6] 'c' = .ok r ∧
      r.elems = [4, 5, 6].map id ∧ r.size = 3) :=
  ⟨(list_ctor_spec (T := Int) (N := 3) id [(7 : Int), 8] 'c').1.mpr (by decide),
   (list_ctor_spec (T := Int) (N := 0) id [(1 : Int), 2, 3] 'c').2.mpr (by decide),
   (list_ctor_spec (T := Int) (N := 3) id [(4 : Int), 5, 6] 'c').2.mpr (by decide)⟩

end coords_claims

/-! ## Construction from a foreign sequence, assignment, default and fill -/

section construction_claims

variable {T U : Type} {N : Nat}

/-- The outcome of `init_copy` in both cases. -/
theorem init_copy_cases (conv : U → T) (self : vector T N) (other : List U) (logic : String) :
    (N ≠ 0 ∧ other.length ≠ N ∧
      self.init_copy conv other logic
        = (.error (.invalid_argument ("\nERR: fixed vector" ++ logic
            ++ " requires # of elements equal to its length")), self)) ∨
    (¬ (N ≠ 0 ∧ other.length ≠ N) ∧
      ∃ r : vector T N, self.init_copy conv other logic = (.ok (), r) ∧
        r.elems = other.map conv ∧ r.size = other.length ∧
        r.is_row = self.is_row ∧ r.is_col = self.is_col) := by
  by_cases h : N ≠ 0 ∧ other.length ≠ N
  · left
    refine ⟨h.1, h.2, ?_⟩
    unfold vector.init_copy
    rw [dif_pos h]
  · right
    refine ⟨h, ?_⟩
    unfold vector.init_copy
    rw [dif_neg h]
    exact ⟨_, rfl, rfl, by simp [vector.size], rfl, rfl⟩

/-- The outcome of `init_move` in both cases. -/
theorem init_move_cases (conv : U → T) (self : vector T N) (other : List U) (logic : String) :
    (N ≠ 0 ∧ other.length ≠ N ∧
      self.init_move conv other logic
        = (.error (.invalid_argument ("\nERR: fixed vector" ++ logic
            ++ " requires # of elements equal to its length")), self)) ∨
    (¬ (N ≠ 0 ∧ other.length ≠ N) ∧
      ∃ r : vector T N, self.init_move conv other logic = (.ok (), r) ∧
        r.elems = other.map conv ∧ r.size = other.length ∧
        r.is_row = self.is_row ∧ r.is_col = self.is_col) := by
  by_cases h : N ≠ 0 ∧ other.length ≠ N
  · left
    refine ⟨h.1, h.2, ?_⟩
    unfold vector.init_move
    rw [dif_pos h]
  · right
    refine ⟨h, ?_⟩
    unfold vector.init_move
    rw [dif_neg h]
    exact ⟨_, rfl, rfl, by simp [vector.size], rfl, rfl⟩

theorem constructor_message :
    "\nERR: fixed vector" ++ "constructor" ++ " requires # of elements equal to its length"
      = "\nERR: fixed vectorconstructor requires # of elements equal to its length" := by
  decide

theorem assignment_message :
    "\nERR: fixed vector" ++ "assignment" ++ " requires # of elements equal to its length"
      = "\nERR: fixed vectorassignment requires # of elements equal to its length" := by
  decide

/-- The copy and the move constructor in both cases. -/
theorem copy_move_ctor_cases [Zero T] (conv : U → T) (s : List U) (vectype : Char) :
    (N ≠ 0 ∧ s.length ≠ N ∧
      (vector.copy_ctor conv s vectype : Except Error (vector T N))
        = .error (.invalid_argument
            "\nERR: fixed vectorconstructor requires # of elements equal to its length") ∧
      (vector.move_ctor conv s vectype : Except Error (vector T N))
        = .error (.invalid_argument
            "\nERR: fixed vectorconstructor requires # of elements equal to its length")) ∨
    (¬ (N ≠ 0 ∧ s.length ≠ N) ∧
      (∃ r : vector T N, vector.copy_ctor conv s vectype = .ok r ∧
        r.elems = s.map conv ∧ r.size = s.length ∧
        r.is_row = (vectype == 'r') ∧ r.is_col = (vectype == 'c')) ∧
      (∃ r : vector T N, vector.move_ctor conv s vectype = .ok r ∧
        r.elems = s.map conv ∧ r.size = s.length ∧
        r.is_row = (vectype == 'r') ∧ r.is_col = (vectype == 'c'))) := by
  rcases init_copy_cases conv (vector.default_ctor vectype : vector T N) s "constructor" with
    ⟨h1, h2, hc⟩ | ⟨h, r, hc, helems, hsize, hrow, hcol⟩
  · rcases init_move_cases conv (vector.default_ctor vectype : vector T N) s "constructor" with
      ⟨-, -, hm⟩ | ⟨h, -⟩
    · left
      refine ⟨h1, h2, ?_, ?_⟩
      · unfold vector.copy_ctor
        rw [hc, constructor_message]
        rfl
      · unfold vector.move_ctor
        rw [hm, constructor_message]
        rfl
    · exact absurd ⟨h1, h2⟩ h
  · rcases init_move_cases conv (vector.default_ctor vectype : vector T N) s "constructor" with
      ⟨h1, h2, -⟩ | ⟨-, r2, hm, helems2, hsize2, hrow2, hcol2⟩
    · exact absurd ⟨h1, h2⟩ h
    · right
      refine ⟨h, ⟨r, ?_, helems, hsize, hrow, hcol⟩, ⟨r2, ?_, helems2, hsize2, hrow2, hcol2⟩⟩
      · unfold vector.copy_ctor
        rw [hc]
        rfl
      · unfold vector.move_ctor
        rw [hm]
        rfl

/-- C21. Constructing `vector<T, N>` from a foreign sequence `s`, by copy or by
move, throws its invalid-argument (length-mismatch) error exactly when `N != 0`
and the length of `s` differs from `N`; otherwise the new container has the
length of `s` and holds its elements in order, converted to `T`. -/
theorem copy_move_ctor_spec [Zero T] (conv : U → T) (s : List U) (vectype : Char) :
    ((vector.copy_ctor conv s vectype : Except Error (vector T N))
        = .error (.invalid_argument
            "\nERR: fixed vectorconstructor requires # of elements equal to its length")
      ↔ (N ≠ 0 ∧ s.length ≠ N)) ∧
    ((∃ r : vector T N, vector.copy_ctor conv s vectype = .ok r ∧
        r.size = s.length ∧ r.elems = s.map conv)
      ↔ ¬ (N ≠ 0 ∧ s.length ≠ N)) ∧
    ((vector.move_ctor conv s vectype : Except Error (vector T N))
        = .error (.invalid_argument
            "\nERR: fixed vectorconstructor requires # of elements equal to its length")
      ↔ (N ≠ 0 ∧ s.length ≠ N)) ∧
    ((∃ r : vector T N, vector.move_ctor conv s vectype = .ok r ∧
        r.size = s.length ∧ r.elems = s.map conv)
      ↔ ¬ (N ≠ 0 ∧ s.length ≠ N)) := by
  rcases copy_move_ctor_cases (T := T) (N := N) conv s vectype with
    ⟨h1, h2, hc, hm⟩ | ⟨h, ⟨r, hc, helems, hsize, -, -⟩, ⟨r2, hm, helems2, hsize2, -, -⟩⟩
  · rw [hc, hm]
    refine ⟨⟨fun _ => ⟨h1, h2⟩, fun _ => rfl⟩, ⟨?_, fun hn => absurd ⟨h1, h2⟩ hn⟩,
      ⟨fun _ => ⟨h1, h2⟩, fun _ => rfl⟩, ⟨?_, fun hn => absurd ⟨h1, h2⟩ hn⟩⟩
    · rintro ⟨r, hr, -⟩
      cases hr
    · rintro ⟨r, hr, -⟩
      cases hr
  · rw [hc, hm]
    exact ⟨⟨fun e => (by cases e), fun hn => absurd hn h⟩,
      ⟨fun _ => h, fun _ => ⟨r, rfl, hsize, helems⟩⟩,
      ⟨fun e => (by cases e), fun hn => absurd hn h⟩,
      ⟨fun _ => h, fun _ => ⟨r2, rfl, hsize2, helems2⟩⟩⟩

/-- The instances of C21 checked by the tests: `vector<int,2>` from a 3-element
sequence is rejected, a dynamic `vector<int>` adopts it. -/
theorem copy_move_ctor_spec_witness :
    (vector.copy_ctor id [(1 : Int), 2, 3] 'c' : Except Error (vector Int 2))
      = .error (.invalid_argument
          "\nERR: fixed vectorconstructor requires # of elements equal to its length") ∧
    (∃ r : vector Int 0, vector.move_ctor id [(1 : Int), 2, 3] 'c' = .ok r ∧
      r.size = 3 ∧ r.elems = [1, 2, 3].map id) :=
  ⟨(copy_move_ctor_spec (T := Int) (N := 2) id [(1 : Int), 2, 3] 'c').1.mpr (by decide),
   (copy_move_ctor_spec (T := Int) (N := 0) id [(1 : Int), 2, 3] 'c').2.2.2.mpr (by decide)⟩

/-- Copy and move assignment in both cases. -/
theorem assign_cases (conv : U → T) (v : vector T N) (s : List U) :
    (N ≠ 0 ∧ s.length ≠ N ∧
      v.operator_assign_copy conv s
        = (.error (.invalid_argument
            "\nERR: fixed vectorassignment requires # of elements equal to its length"), v) ∧
      v.operator_assign_move conv s
        = (.error (.invalid_argument
            "\nERR: fixed vectorassignment requires # of elements equal to its length"), v)) ∨
    (¬ (N ≠ 0 ∧ s.length ≠ N) ∧
      (∃ r : vector T N, v.operator_assign_copy conv s = (.ok (), r) ∧
        r.elems = s.map conv ∧ r.size = s.length ∧
        r.is_row = v.is_row ∧ r.is_col = v.is_col) ∧
      (∃ r : vector T N, v.operator_assign_move conv s = (.ok (), r) ∧
        r.elems = s.map conv ∧ r.size = s.length ∧
        r.is_row = v.is_row ∧ r.is_col = v.is_col)) := by
  unfold vector.operator_assign_copy vector.operator_assign_move
  rcases init_copy_cases conv v s "assignment" with ⟨h1, h2, hc⟩ | ⟨h, hc⟩
  · rcases init_move_cases conv v s "assignment" with ⟨-, -, hm⟩ | ⟨h, -⟩
    · left
      rw [assignment_message] at hc hm
      exact ⟨h1, h2, hc, hm⟩
    · exact absurd ⟨h1, h2⟩ h
  · rcases init_move_cases conv v s "assignment" with ⟨h1, h2, -⟩ | ⟨-, hm⟩
    · exact absurd ⟨h1, h2⟩ h
    · exact Or.inr ⟨h, hc, hm⟩

/-- C22. Copy- or move-assigning a foreign sequence `s` to a dynamic vector,
whatever it held, returns normally and leaves it with the length of `s` and the
elements of `s` in order, converted to `T`, and nothing else. -/
theorem dynamic_assign_adopts (conv : U → T) (v : vector T 0) (s : List U) :
    (∃ r : vector T 0, v.operator_assign_copy conv s = (.ok (), r) ∧
      r.size = s.length ∧ r.elems = s.map conv) ∧
    (∃ r : vector T 0, v.operator_assign_move conv s = (.ok (), r) ∧
      r.size = s.length ∧ r.elems = s.map conv) := by
  rcases assign_cases conv v s with
    ⟨h1, -⟩ | ⟨-, ⟨r, hc, helems, hsize, -, -⟩, ⟨r2, hm, helems2, hsize2, -, -⟩⟩
  · exact absurd rfl h1
  · exact ⟨⟨r, hc, hsize, helems⟩, ⟨r2, hm, hsize2, helems2⟩⟩

/-- An instance of C22: a dynamic `vector<int>` holding `(7, 8)` is assigned the
sequence `{1, 2, 3}`. -/
theorem dynamic_assign_adopts_witness :
    (∃ r : vector Int 0, (dynamic [7, 8]).operator_assign_copy id [(1 : Int), 2, 3]
        = (.ok (), r) ∧ r.size = 3 ∧ r.elems = [1, 2, 3].map id) ∧
    (∃ r : vector Int 0, (dynamic [7, 8]).operator_assign_move id [(1 : Int), 2, 3]
        = (.ok (), r) ∧ r.size = 3 ∧ r.elems = [1, 2, 3].map id) :=
  dynamic_assign_adopts id (dynamic [7, 8]) [(1 : Int), 2, 3]

/-- C23. Copy- or move-assigning a foreign sequence `s` to a fixed-length vector
of length `N > 0` throws its invalid-argument (length-mismatch) error exactly
when the length of `s` differs from `N`, and then leaves the vector as it was;
otherwise it returns normally and the vector, still of length `N`, holds the
elements of `s` in order. -/
theorem fixed_assign_spec (conv : U → T) (v : vector T N) (s : List U) (hN : N ≠ 0) :
    (v.operator_assign_copy conv s
        = (.error (.invalid_argument
            "\nERR: fixed vectorassignment requires # of elements equal to its length"), v)
      ↔ s.length ≠ N) ∧
    ((∃ r : vector T N, v.operator_assign_copy conv s = (.ok (), r) ∧
        r.size = N ∧ r.elems = s.map conv) ↔ s.length = N) ∧
    (v.operator_assign_move conv s
        = (.error (.invalid_argument
            "\nERR: fixed vectorassignment requires # of elements equal to its length"), v)
      ↔ s.length ≠ N) ∧
    ((∃ r : vector T N, v.operator_assign_move conv s = (.ok (), r) ∧
        r.size = N ∧ r.elems = s.map conv) ↔ s.length = N) := by
  rcases assign_cases conv v s with
    ⟨-, h2, hc, hm⟩ | ⟨h, ⟨r, hc, helems, hsize, -, -⟩, ⟨r2, hm, helems2, hsize2, -, -⟩⟩
  · rw [hc, hm]
    refine ⟨⟨fun _ => h2, fun _ => rfl⟩, ⟨?_, fun e => absurd e h2⟩,
      ⟨fun _ => h2, fun _ => rfl⟩, ⟨?_, fun e => absurd e h2⟩⟩
    · rintro ⟨r, hr, -⟩
      cases hr
    · rintro ⟨r, hr, -⟩
      cases hr
  · have hlen : s.length = N := by
      by_contra hne
      exact h ⟨hN, hne⟩
    rw [hc, hm]
    refine ⟨⟨fun e => ?_, fun hne => absurd hlen hne⟩,
      ⟨fun _ => hlen, fun _ => ⟨r, rfl, hsize.trans hlen, helems⟩⟩,
      ⟨fun e => ?_, fun hne => absurd hlen hne⟩,
      ⟨fun _ => hlen, fun _ => ⟨r2, rfl, hsize2.trans hlen, helems2⟩⟩⟩
    · cases e
    · cases e

/-- The instances of C23 checked by the tests: a 2-element sequence is rejected
by a `vector<int,3>`, which keeps its elements, and a 3-element one is taken. -/
theorem fixed_assign_spec_witness :
    (3 : Nat) ≠ 0 ∧
    (fixed3 7 8 9).operator_assign_copy id [(1 : Int), 2]
      = (.error (.invalid_argument
          "\nERR: fixed vectorassignment requires # of elements equal to its length"),
         fixed3 7 8 9) ∧
    (∃ r : vector Int 3, (fixed3 7 8 9).operator_assign_move id [(1 : Int), 2, 3]
        = (.ok (), r) ∧ r.size = 3 ∧ r.elems = [1, 2, 3].map id) :=
  ⟨by decide,
   (fixed_assign_spec id (fixed3 7 8 9) [(1 : Int), 2] (by decide)).1.mpr (by decide),
   (fixed_assign_spec id (fixed3 7 8 9) [(1 : Int), 2, 3] (by decide)).2.2.2.mpr rfl⟩

/-- C24. Round trip: a dynamic vector `v` constructed from a list `l`, and a
dynamic vector `w` copy-constructed from `v`, are both constructed, and `w` has
the length of `l` and holds the values of `l` in order (as converted by the list
constructor; unchanged when the list has the element type). -/
theorem list_copy_round_trip [Zero T] (conv : U → T) (l : List U) (l0 : List T)
    (vt wt : Char) :
    (∃ v : vector T 0, vector.list_ctor conv l vt = .ok v ∧
      ∃ w : vector T 0, vector.copy_ctor id v.elems wt = .ok w ∧
        w.size = l.length ∧ w.elems = l.map conv) ∧
    (∃ v : vector T 0, vector.list_ctor id l0 vt = .ok v ∧
      ∃ w : vector T 0, vector.copy_ctor id v.elems wt = .ok w ∧
        w.size = l0.length ∧ w.elems = l0) := by
  have key : ∀ (V : Type) (c : V → T) (k : List V),
      ∃ v : vector T 0, vector.list_ctor c k vt = .ok v ∧
        ∃ w : vector T 0, vector.copy_ctor id v.elems wt = .ok w ∧
          w.size = k.length ∧ w.elems = k.map c := by
    intro V c k
    rcases list_ctor_cases (T := T) (N := 0) c k vt with
      ⟨h1, -⟩ | ⟨-, v, hv, helems, -, -, -⟩
    · exact absurd rfl h1
    · rcases copy_move_ctor_cases (T := T) (N := 0) id v.elems wt with
        ⟨h1, -⟩ | ⟨-, ⟨w, hw, hwelems, hwsize, -, -⟩, -⟩
      · exact absurd rfl h1
      · refine ⟨v, hv, w, hw, ?_, ?_⟩
        · rw [hwsize, helems, List.length_map]
        · rw [hwelems, helems, List.map_id]
  refine ⟨key U conv l, ?_⟩
  obtain ⟨v, hv, w, hw, hsize, helems⟩ := key T id l0
  exact ⟨v, hv, w, hw, hsize, by rw [helems, List.map_id]⟩

/-- The instance of C24 checked by the tests: `l = {1, 2, 3}`. -/
theorem list_copy_round_trip_witness :
    ∃ v : vector Int 0, vector.list_ctor id [(1 : Int), 2, 3] 'c' = .ok v ∧
      ∃ w : vector Int 0, vector.copy_ctor id v.elems 'c' = .ok w ∧
        w.size = 3 ∧ w.elems = [1, 2, 3] :=
  (list_copy_round_trip (T := Int) (id : Int → Int) [1, 2, 3] [1, 2, 3] 'c' 'c').2

/-- C25. The default constructor gives an empty sequence for a dynamic vector
and, for a fixed length `N`, a sequence of exactly `N` elements that are all
zero. -/
theorem default_ctor_spec [Zero T] (vectype : Char) :
    (vector.default_ctor vectype : vector T 0).size = 0 ∧
    (vector.default_ctor vectype : vector T 0).elems = [] ∧
    (vector.default_ctor vectype : vector T N).size = N ∧
    (∀ x ∈ (vector.default_ctor vectype : vector T N).elems, x = 0) ∧
    (∀ i, i < N → (vector.default_ctor vectype : vector T N).subscript i = .ok 0) := by
  refine ⟨rfl, rfl, List.length_replicate N 0, ?_, ?_⟩
  · intro x hx
    exact List.eq_of_mem_replicate hx
  · intro i hi
    have hlt : i < (vector.default_ctor vectype : vector T N).elems.length := by
      rw [default_ctor_elems, List.length_replicate]
      exact hi
    rw [vector.read_of_lt _ i hlt]
    simp [default_ctor_elems]

/-- The instances of C25 checked by the tests: `vector<int> v1;` is empty and
`vector<int, 3> v2;` has three zero elements. -/
theorem default_ctor_spec_witness :
    (vector.default_ctor 'c' : vector Int 0).size = 0 ∧
    (vector.default_ctor 'c' : vector Int 3).size = 3 ∧
    (vector.default_ctor 'c' : vector Int 3).elems = [0, 0, 0] :=
  ⟨(default_ctor_spec (T := Int) (N := 3) 'c').1,
   (default_ctor_spec (T := Int) (N := 3) 'c').2.2.1, rfl⟩

/-- C26. The fill constructor of a dynamic vector gives exactly `len` elements,
each equal to the fill value converted to `T`; the fill constructor of a
fixed-length vector called with `len == N` gives `N` such elements. -/
theorem fill_ctor_spec [Zero T] (conv : U → T) (len : Nat) (f : U) (vectype : Char) :
    (∃ r : vector T 0, vector.fill_ctor conv len f vectype = .ok r ∧ r.size = len ∧
      r.elems = List.replicate len (conv f) ∧ ∀ x ∈ r.elems, x = conv f) ∧
    (∃ r : vector T N, vector.fill_ctor conv N f vectype = .ok r ∧ r.size = N ∧
      r.elems = List.replicate N (conv f) ∧ ∀ x ∈ r.elems, x = conv f) := by
  constructor
  · refine ⟨⟨List.replicate len (conv f), vectype == 'r', vectype == 'c',
      fun h => absurd rfl h⟩, ?_, List.length_replicate _ _, rfl,
      fun x hx => List.eq_of_mem_replicate hx⟩
    simp [vector.fill_ctor]
  · by_cases hN : N = 0
    · subst hN
      refine ⟨⟨List.replicate 0 (conv f), vectype == 'r', vectype == 'c',
        fun h => absurd rfl h⟩, ?_, rfl, rfl, fun x hx => List.eq_of_mem_replicate hx⟩
      simp [vector.fill_ctor]
    · refine ⟨⟨List.replicate N (conv f), vectype == 'r', vectype == 'c',
        fun _ => List.length_replicate _ _⟩, ?_, List.length_replicate _ _, rfl,
        fun x hx => List.eq_of_mem_replicate hx⟩
      simp [vector.fill_ctor, hN]

/-- The instances of C26 checked by the tests: `vector<double>(4, 3.14)`, with
the fill value read as an exact rational, and `vector<int, 5>(5, 42)`. -/
theorem fill_ctor_spec_witness :
    (∃ r : vector ℚ 0, vector.fill_ctor id 4 (314 / 100 : ℚ) 'c' = .ok r ∧ r.size = 4 ∧
      r.elems = List.replicate 4 (314 / 100 : ℚ)) ∧
    (∃ r : vector Int 5, vector.fill_ctor id 5 (42 : Int) 'c' = .ok r ∧ r.size = 5 ∧
      r.elems = List.replicate 5 (42 : Int)) := by
  obtain ⟨⟨r, hr, hs, he, -⟩, -⟩ :=
    fill_ctor_spec (T := ℚ) (N := 0) id 4 (314 / 100 : ℚ) 'c'
  obtain ⟨-, ⟨r2, hr2, hs2, he2, -⟩⟩ :=
    fill_ctor_spec (T := Int) (N := 5) id 5 (42 : Int) 'c'
  exact ⟨⟨r, hr, hs, he⟩, ⟨r2, hr2, hs2, he2⟩⟩

/-- The fill constructor of a fixed-length vector called with a length above `N`
throws nothing: `std::fill` runs past the end of the array. -/
theorem fill_ctor_past_end [Zero T] (conv : U → T) (len : Nat) (f : U) (vectype : Char)
    (hN : N ≠ 0) (hlen : N < len) :
    (vector.fill_ctor conv len f vectype : Except Error (vector T N))
      = .error .out_of_bounds := by
  unfold vector.fill_ctor
  rw [dif_neg hN, dif_neg (by omega)]

/-- C27. The fill constructor has no length check: `vector<int, 3>(5, 42)` runs
`std::fill` over five places of a three-element array instead of throwing a
length error. -/
theorem fill_ctor_no_length_check :
    (vector.fill_ctor id 5 (42 : Int) 'c' : Except Error (vector Int 3))
      = .error .out_of_bounds ∧
    ∀ msg, (vector.fill_ctor id 5 (42 : Int) 'c' : Except Error (vector Int 3))
      ≠ .error (.invalid_argument msg) :=
  ⟨rfl, fun _ h => by cases h⟩

end construction_claims

/-! ## The orientation flags -/

section orientation_claims

variable {T U C : Type} {N : Nat}

theorem store_flags (v w : vector T N) (i : Nat) (x : T) (h : v.store i x = .ok w) :
    w.is_row = v.is_row ∧ w.is_col = v.is_col := by
  unfold vector.store at h
  split at h
  · cases h
    exact ⟨rfl, rfl⟩
  · cases h

/-- A loop whose body keeps the flags keeps the flags. -/
theorem foldlM_flags (body : vector C N → Nat → Except Error (vector C N))
    (hbody : ∀ res i res1, body res i = .ok res1 →
      res1.is_row = res.is_row ∧ res1.is_col = res.is_col) :
    ∀ (l : List Nat) (r0 r : vector C N), l.foldlM body r0 = .ok r →
      r.is_row = r0.is_row ∧ r.is_col = r0.is_col := by
  intro l
  induction l with
  | nil =>
    intro r0 r h
    cases h
    exact ⟨rfl, rfl⟩
  | cons i l ih =>
    intro r0 r h
    rw [List.foldlM_cons] at h
    cases hb : body r0 i with
    | error e =>
      rw [hb] at h
      cases h
    | ok r1 =>
      rw [hb] at h
      obtain ⟨h1, h2⟩ := ih r1 r h
      obtain ⟨k1, k2⟩ := hbody r0 i r1 hb
      exact ⟨h1.trans k1, h2.trans k2⟩

/-- The result of an elementwise operator, when there is one, is a column: it is
built by the fill constructor with the default tag. -/
theorem elementwise_flags [Zero C] (f : T → U → Except Error C)
    (a : vector T N) (b : List U) (r : vector C N)
    (h : (vector.fill_ctor id a.size (0 : C) 'c' >>= fun result =>
      (List.range a.size).foldlM (fun (result : vector C N) i => do
        let x ← a.subscript i
        let y ← ccomms.subscript b i
        result.store i (← f x y)) result) = .ok r) :
    r.is_row = false ∧ r.is_col = true := by
  obtain ⟨r0, hfill, -, hrow, hcol⟩ := fill_ctor_size (C := C) a
  rw [hfill] at h
  obtain ⟨h1, h2⟩ := foldlM_flags _ (fun res i res1 hb => by
    cases hx : a.subscript i with
    | error e => simp [hx, bind, Except.bind] at hb
    | ok x =>
      cases hy : subscript b i with
      | error e => simp [hx, hy, bind, Except.bind] at hb
      | ok y =>
        cases hq : f x y with
        | error e => simp [hx, hy, hq, bind, Except.bind] at hb
        | ok q =>
          refine store_flags res res1 i q ?_
          simpa [hx, hy, hq, bind, Except.bind] using hb) _ r0 r h
  exact ⟨h1.trans hrow, h2.trans hcol⟩

/-- The flags of the constructors: each is the comparison of the tag with `'r'`,
resp. `'c'`. -/
theorem ctor_flags [Zero T] (conv : U → T) (len : Nat) (f : U) (s : List U) (vt : Char) :
    ((vector.default_ctor vt : vector T N).is_row = (vt == 'r') ∧
      (vector.default_ctor vt : vector T N).is_col = (vt == 'c')) ∧
    (∀ r : vector T N, vector.fill_ctor conv len f vt = .ok r →
      r.is_row = (vt == 'r') ∧ r.is_col = (vt == 'c')) ∧
    (∀ r : vector T N, vector.list_ctor conv s vt = .ok r →
      r.is_row = (vt == 'r') ∧ r.is_col = (vt == 'c')) ∧
    (∀ r : vector T N, vector.copy_ctor conv s vt = .ok r →
      r.is_row = (vt == 'r') ∧ r.is_col = (vt == 'c')) ∧
    (∀ r : vector T N, vector.move_ctor conv s vt = .ok r →
      r.is_row = (vt == 'r') ∧ r.is_col = (vt == 'c')) := by
  refine ⟨⟨rfl, rfl⟩, ?_, ?_, ?_, ?_⟩
  · intro r h
    unfold vector.fill_ctor at h
    split at h
    · cases h
      exact ⟨rfl, rfl⟩
    · split at h
      · cases h
        exact ⟨rfl, rfl⟩
      · cases h
  · intro r h
    rcases list_ctor_cases (T := T) (N := N) conv s vt with
      ⟨-, -, he⟩ | ⟨-, r1, hr, -, -, hrow, hcol⟩
    · rw [he] at h
      cases h
    · rw [hr] at h
      cases h
      exact ⟨hrow, hcol⟩
  · intro r h
    rcases copy_move_ctor_cases (T := T) (N := N) conv s vt with
      ⟨-, -, he, -⟩ | ⟨-, ⟨r1, hr, -, -, hrow, hcol⟩, -⟩
    · rw [he] at h
      cases h
    · rw [hr] at h
      cases h
      exact ⟨hrow, hcol⟩
  · intro r h
    rcases copy_move_ctor_cases (T := T) (N := N) conv s vt with
      ⟨-, -, -, he⟩ | ⟨-, -, ⟨r1, hr, -, -, hrow, hcol⟩⟩
    · rw [he] at h
      cases h
    · rw [hr] at h
      cases h
      exact ⟨hrow, hcol⟩

/-- The result of the cross product, when there is one, is a column. -/
theorem operator_and_flags [Sub C] [Mul C] (cT : T → C) (cU : U → C)
    (a : vector T N) (b : List U) (r : vector C N) (h : a.operator_and cT cU b = .ok r) :
    r.is_row = false ∧ r.is_col = true := by
  by_cases hg : b.length ≠ 3 ∨ a.size ≠ 3
  · unfold vector.operator_and at h
    rw [if_pos hg] at h
    cases h
  · have hb : b.length = 3 := by
      by_contra hne; exact hg (Or.inl hne)
    have ha : a.size = 3 := by
      by_contra hne; exact hg (Or.inr hne)
    obtain ⟨x1, y1, z1, hae⟩ : ∃ x1 y1 z1, a.elems = [x1, y1, z1] :=
      List.length_eq_three.mp ha
    obtain ⟨x2, y2, z2, hbe⟩ : ∃ x2 y2 z2, b = [x2, y2, z2] :=
      List.length_eq_three.mp hb
    subst hbe
    have hN : ¬ (N ≠ 0 ∧ 3 ≠ N) := by
      rintro ⟨h0, h3⟩
      have := a.fixed_len h0
      rw [hae] at this
      exact h3 this
    simp [vector.operator_and, vector.size, vector.subscript, subscript, hae,
      vector.list_ctor, hN, bind, Except.bind] at h
    rw [← h]
    exact ⟨rfl, rfl⟩

/-- C28, as the code has it. A constructor sets `is_row` to `vectype == 'r'` and
`is_col` to `vectype == 'c'`: the flags are never both true, and one of them is
true exactly when the tag is `'r'` or `'c'`.  A container returned by the cross
product or by an elementwise operator is a column (`is_col` true, `is_row`
false). -/
theorem orientation_flags [Zero T] [Zero C] [Add C] [Sub C] [Mul C]
    (conv : U → T) (len : Nat) (f : U) (s : List U) (vt : Char)
    (quot : C → C → Except Error C) (cT : T → C) (cU : U → C)
    (a : vector T N) (b : List U) :
    (((vector.default_ctor vt : vector T N).is_row = (vt == 'r') ∧
        (vector.default_ctor vt : vector T N).is_col = (vt == 'c')) ∧
      (∀ r : vector T N, vector.fill_ctor conv len f vt = .ok r →
        r.is_row = (vt == 'r') ∧ r.is_col = (vt == 'c')) ∧
      (∀ r : vector T N, vector.list_ctor conv s vt = .ok r →
        r.is_row = (vt == 'r') ∧ r.is_col = (vt == 'c')) ∧
      (∀ r : vector T N, vector.copy_ctor conv s vt = .ok r →
        r.is_row = (vt == 'r') ∧ r.is_col = (vt == 'c')) ∧
      (∀ r : vector T N, vector.move_ctor conv s vt = .ok r →
        r.is_row = (vt == 'r') ∧ r.is_col = (vt == 'c'))) ∧
    ¬ ((vt == 'r') = true ∧ (vt == 'c') = true) ∧
    (((vt == 'r') = true ∨ (vt == 'c') = true) ↔ (vt = 'r' ∨ vt = 'c')) ∧
    (∀ r, a.operator_and cT cU b = .ok r → r.is_row = false ∧ r.is_col = true) ∧
    (∀ r, a.operator_plus cT cU b = .ok r → r.is_row = false ∧ r.is_col = true) ∧
    (∀ r, a.operator_minus cT cU b = .ok r → r.is_row = false ∧ r.is_col = true) ∧
    (∀ r, a.operator_star cT cU b = .ok r → r.is_row = false ∧ r.is_col = true) ∧
    (∀ r, a.operator_slash quot cT cU b = .ok r → r.is_row = false ∧ r.is_col = true) := by
  refine ⟨ctor_flags conv len f s vt, ?_, ?_, operator_and_flags cT cU a b, ?_, ?_, ?_, ?_⟩
  · rintro ⟨h1, h2⟩
    rw [beq_iff_eq] at h1 h2
    rw [h1] at h2
    exact absurd h2 (by decide)
  · simp only [beq_iff_eq]
  · intro r h
    unfold vector.operator_plus at h
    split at h
    · cases h
    · exact elementwise_flags (fun x y => .ok (cT x + cU y)) a b r h
  · intro r h
    unfold vector.operator_minus at h
    split at h
    · cases h
    · exact elementwise_flags (fun x y => .ok (cT x - cU y)) a b r h
  · intro r h
    unfold vector.operator_star at h
    split at h
    · cases h
    · exact elementwise_flags (fun x y => .ok (cT x * cU y)) a b r h
  · intro r h
    unfold vector.operator_slash at h
    split at h
    · cases h
    · exact elementwise_flags (fun x y => quot (cT x) (cU y)) a b r h

/-- Instances of the amended C28: `vector<int,3>{4,5,6}` built with tag `'r'` is a
row, and `(1,2,3) + (4,5,6)` is a column. -/
theorem orientation_flags_witness :
    (∃ r : vector Int 3, vector.list_ctor id [(4 : Int), 5, 6] 'r' = .ok r ∧
      r.is_row = true ∧ r.is_col = false) ∧
    (∃ r : vector Int 3, (fixed3 1 2 3).operator_plus id id [(4 : Int), 5, 6] = .ok r ∧
      r.is_row = false ∧ r.is_col = true) := by
  have key := orientation_flags (T := Int) (C := Int) (N := 3) id 0 (0 : Int)
    [(4 : Int), 5, 6] 'r' int_quot id id (fixed3 1 2 3) [(4 : Int), 5, 6]
  obtain ⟨⟨-, -, hlist, -, -⟩, -, -, -, hplus, -⟩ := key
  refine ⟨⟨⟨[4, 5, 6], true, false, fun _ => rfl⟩, rfl, ?_⟩,
    ⟨⟨[5, 7, 9], false, true, fun _ => rfl⟩, rfl, ?_⟩⟩
  · exact hlist _ rfl
  · exact hplus _ rfl

/-- C28 as stated fails: a container constructed with the tag `'x'` has neither
flag set, and neither has the result of the scalar product `(1,2,3) * 2`, whose
tag is the operand's length. -/
theorem orientation_neither_flag :
    ((vector.default_ctor 'x' : vector Int 0).is_row = false ∧
      (vector.default_ctor 'x' : vector Int 0).is_col = false) ∧
    (∃ r : vector Int 3, vector.list_ctor id [(4 : Int), 5, 6] 'x' = .ok r ∧
      r.is_row = false ∧ r.is_col = false) ∧
    (∃ r : vector Int 3, (fixed3 1 2 3).operator_star_scalar id id (2 : Int) = .ok r ∧
      r.is_row = false ∧ r.is_col = false) :=
  ⟨⟨rfl, rfl⟩, ⟨⟨[4, 5, 6], false, false, fun _ => rfl⟩, rfl, rfl, rfl⟩,
    ⟨⟨[2, 4, 6], false, false, fun _ => rfl⟩, rfl, rfl, rfl⟩⟩

end orientation_claims

/-! ## Algebra of the cross product over the integers -/

section cross_algebra

variable {N M : Nat}

/-- The cross product and the two inner products with it, on the elements. -/
theorem cross_then_inner (a : vector Int N) (b : vector Int M)
    (x1 y1 z1 x2 y2 z2 : Int) (ha : a.elems = [x1, y1, z1]) (hb : b.elems = [x2, y2, z2]) :
    ∃ r : vector Int N, a.operator_and id id b.elems = .ok r ∧
      r.elems = [y1 * z2 - z1 * y2, z1 * x2 - x1 * z2, x1 * y2 - y1 * x2] ∧
      a.operator_or id id r.elems = .ok 0 ∧ b.operator_or id id r.elems = .ok 0 := by
  obtain ⟨r, hr, hsize, helems⟩ :=
    operator_and_of_three id id a b.elems x1 y1 z1 x2 y2 z2 ha hb
  simp only [id] at helems
  refine ⟨r, hr, helems, ?_, ?_⟩
  · rw [operator_or_of_length_eq id id a r.elems (by simp [vector.size, ha, helems]),
      ha, helems]
    simp only [List.zipWith_cons_cons, List.zipWith_nil_right, List.foldl_cons,
      List.foldl_nil, id]
    congr 1
    ring
  · rw [operator_or_of_length_eq id id b r.elems (by simp [vector.size, hb, helems]),
      hb, helems]
    simp only [List.zipWith_cons_cons, List.zipWith_nil_right, List.foldl_cons,
      List.foldl_nil, id]
    congr 1
    ring

/-- C29. Orthogonality: for 3-element integer vectors `a` and `b` the cross
product `a & b` is returned, and its inner products with `a` and with `b` are
zero. -/
theorem cross_orthogonal (a : vector Int N) (b : vector Int M)
    (ha : a.size = 3) (hb : b.size = 3) :
    ∃ r : vector Int N, a.operator_and id id b.elems = .ok r ∧
      a.operator_or id id r.elems = .ok 0 ∧ b.operator_or id id r.elems = .ok 0 := by
  obtain ⟨x1, y1, z1, hae⟩ : ∃ x1 y1 z1, a.elems = [x1, y1, z1] :=
    List.length_eq_three.mp ha
  obtain ⟨x2, y2, z2, hbe⟩ : ∃ x2 y2 z2, b.elems = [x2, y2, z2] :=
    List.length_eq_three.mp hb
  obtain ⟨r, hr, -, h1, h2⟩ := cross_then_inner a b x1 y1 z1 x2 y2 z2 hae hbe
  exact ⟨r, hr, h1, h2⟩

/-- An instance of C29: `a = (1,2,3)`, `b = (4,5,6)`, `a & b = (-3,6,-3)`. -/
theorem cross_orthogonal_witness :
    (fixed3 1 2 3).size = 3 ∧ (fixed3 4 5 6).size = 3 ∧
    ∃ r : vector Int 3, (fixed3 1 2 3).operator_and id id (fixed3 4 5 6).elems = .ok r ∧
      (fixed3 1 2 3).operator_or id id r.elems = .ok 0 ∧
      (fixed3 4 5 6).operator_or id id r.elems = .ok 0 :=
  ⟨rfl, rfl, cross_orthogonal (fixed3 1 2 3) (fixed3 4 5 6) rfl rfl⟩

/-- C30. Anticommutativity: for 3-element integer vectors `a` and `b`, `a & b`
and `b & a` are returned and every element of `a & b` is the negation of the
element of `b & a` at the same index; and `a & a` is `(0, 0, 0)`. -/
theorem cross_anticommutative (a : vector Int N) (b : vector Int M)
    (ha : a.size = 3) (hb : b.size = 3) :
    (∃ (r1 : vector Int N) (r2 : vector Int M),
      a.operator_and id id b.elems = .ok r1 ∧ b.operator_and id id a.elems = .ok r2 ∧
      r1.elems = r2.elems.map (fun x => -x) ∧
      ∀ (i : Nat) (x y : Int), r1.subscript i = .ok x → r2.subscript i = .ok y → x = -y) ∧
    (∃ r0 : vector Int N, a.operator_and id id a.elems = .ok r0 ∧ r0.elems = [0, 0, 0]) := by
  obtain ⟨x1, y1, z1, hae⟩ : ∃ x1 y1 z1, a.elems = [x1, y1, z1] :=
    List.length_eq_three.mp ha
  obtain ⟨x2, y2, z2, hbe⟩ : ∃ x2 y2 z2, b.elems = [x2, y2, z2] :=
    List.length_eq_three.mp hb
  obtain ⟨r1, hr1, -, he1⟩ := operator_and_of_three id id a b.elems x1 y1 z1 x2 y2 z2 hae hbe
  obtain ⟨r2, hr2, -, he2⟩ := operator_and_of_three id id b a.elems x2 y2 z2 x1 y1 z1 hbe hae
  obtain ⟨r0, hr0, -, he0⟩ := operator_and_of_three id id a a.elems x1 y1 z1 x1 y1 z1 hae hae
  simp only [id] at he1 he2 he0
  have hneg : r1.elems = r2.elems.map (fun x => -x) := by
    rw [he1, he2]
    simp only [List.map_cons, List.map_nil, neg_sub]
    congr 1
    · ring
    · congr 1
      · ring
      · congr 1
        ring
  refine ⟨⟨r1, r2, hr1, hr2, hneg, ?_⟩, ⟨r0, hr0, ?_⟩⟩
  · intro i x y hx hy
    unfold vector.subscript at hx hy
    rw [subscript_ok_iff] at hx hy
    rw [hneg, List.getElem?_map, hy] at hx
    simpa using hx.symm
  · rw [he0]
    congr 1
    · ring
    · congr 1
      · ring
      · congr 1
        ring

/-- An instance of C30: `(1,2,3) & (4,5,6) = (-3,6,-3)` and
`(4,5,6) & (1,2,3) = (3,-6,3)`. -/
theorem cross_anticommutative_witness :
    (fixed3 1 2 3).size = 3 ∧ (fixed3 4 5 6).size = 3 ∧
    (∃ (r1 : vector Int 3) (r2 : vector Int 3),
      (fixed3 1 2 3).operator_and id id (fixed3 4 5 6).elems = .ok r1 ∧
      (fixed3 4 5 6).operator_and id id (fixed3 1 2 3).elems = .ok r2 ∧
      r1.elems = r2.elems.map (fun x => -x)) ∧
    (∃ r0 : vector Int 3, (fixed3 1 2 3).operator_and id id (fixed3 1 2 3).elems = .ok r0 ∧
      r0.elems = [0, 0, 0]) := by
  obtain ⟨⟨r1, r2, h1, h2, hneg, -⟩, h0⟩ :=
    cross_anticommutative (fixed3 1 2 3) (fixed3 4 5 6) rfl rfl
  exact ⟨rfl, rfl, ⟨r1, r2, h1, h2, hneg⟩, h0⟩

end cross_algebra

/-! ## The fill constructor of a fixed-length vector with a shorter length -/

section partial_fill

variable {T U : Type} {N : Nat}

/-- Reading a list made of `len` copies of one value followed by copies of
another. -/
theorem subscript_replicate_append (x y : T) (len k i : Nat) :
    (i < len → subscript (List.replicate len x ++ List.replicate k y) i = .ok x) ∧
    (len ≤ i → i < len + k →
      subscript (List.replicate len x ++ List.replicate k y) i = .ok y) := by
  constructor
  · intro hi
    rw [subscript_ok_iff, List.getElem?_append_left (by simpa using hi),
      List.getElem?_replicate, if_pos hi]
  · intro h1 h2
    rw [subscript_ok_iff, List.getElem?_append_right (by simpa using h1),
      List.getElem?_replicate, List.length_replicate, if_pos (by omega)]

/-- C31. The fill constructor of a fixed-length vector of length `N > 0` called
with `len <= N` returns a container of length exactly `N` whose first `len`
elements are the fill value (converted to `T`) and whose other `N - len`
elements are zero. -/
theorem fill_ctor_partial [Zero T] (conv : U → T) (len : Nat) (f : U) (vectype : Char)
    (hN : N ≠ 0) (hlen : len ≤ N) :
    ∃ r : vector T N, vector.fill_ctor conv len f vectype = .ok r ∧ r.size = N ∧
      r.elems = List.replicate len (conv f) ++ List.replicate (N - len) 0 ∧
      (∀ i, i < len → r.subscript i = .ok (conv f)) ∧
      (∀ i, len ≤ i → i < N → r.subscript i = .ok 0) := by
  refine ⟨⟨List.replicate len (conv f) ++ List.replicate (N - len) 0,
    vectype == 'r', vectype == 'c',
    fun _ => by simp only [List.length_append, List.length_replicate]; omega⟩,
    ?_, ?_, rfl, ?_, ?_⟩
  · unfold vector.fill_ctor
    rw [dif_neg hN, dif_pos hlen]
  · simp only [vector.size, List.length_append, List.length_replicate]
    omega
  · intro i hi
    exact (subscript_replicate_append (conv f) 0 len (N - len) i).1 hi
  · intro i h1 h2
    exact (subscript_replicate_append (conv f) 0 len (N - len) i).2 h1 (by omega)

/-- An instance of C31: `vector<int, 5>(2, 42)` holds `(42, 42, 0, 0, 0)`. -/
theorem fill_ctor_partial_witness :
    (5 : Nat) ≠ 0 ∧ (2 : Nat) ≤ 5 ∧
    ∃ r : vector Int 5, vector.fill_ctor id 2 (42 : Int) 'c' = .ok r ∧ r.size = 5 ∧
      r.elems = [42, 42, 0, 0, 0] := by
  obtain ⟨r, hr, hs, he, -, -⟩ :=
    fill_ctor_partial (T := Int) (N := 5) id 2 (42 : Int) 'c' (by decide) (by decide)
  exact ⟨by decide, by decide, r, hr, hs, he⟩

end partial_fill

end ccomms
